import Mathlib

/-!
Verification development for the scene-sequencing and first-person
physics/collision subsystem of the C2W2 Virtual Runway viewer.

The repository's core consists of:
* `PhysicsManager` (src/managers/PhysicsManager.ts): per-frame player
  simulation `updatePlayerDesktop` / `updatePlayerVR`, key handlers
  `handleKeyDown` / `handleKeyUp`;
* `SequenceManager` (src/managers/SequenceManager.ts): the scene state
  machine `runNextScene` / `loadScene0..5` / `handleVariantClick`;
* `AudioManager`: `playAudio` / `stopAll` / `fadeOut`;
* `ModelLoader` and `UIManager` state mutated by the sequencer;
* `APP_CONFIG` (src/config/app.config.ts): static configuration.

Numbers are embedded as `ℚ` (the source uses IEEE doubles; all constants
in the configuration are exact rationals, and every claim below is about
exact-arithmetic behaviour).  The collision field consumed through
`THREE.Raycaster.intersectObjects` is modelled as a list of axis-aligned
infinite planes (double-sided, matching the collider material); the
raycast interface (nearest hit distance and hit point, `t = 0` accepted,
parallel rays miss) follows three.js `Ray.intersectTriangle` semantics.
The single irrational value produced by the code, the `1/sqrt 2` factor of
`THREE.Vector3.normalize` on a diagonal input direction, is threaded as an
explicit parameter `rt`; no theorem or witness below depends on its value.
-/

/-- A 3D vector with rational coordinates. -/
structure V3 where
  x : ℚ
  y : ℚ
  z : ℚ
deriving DecidableEq, Repr

/-- Coordinate axes, used to orient collision planes. -/
inductive Ax where
  | X
  | Y
  | Z
deriving DecidableEq, Repr

/-- An axis-aligned infinite plane (axis = the plane's normal direction):
one collision mesh of the collision field, double sided as in
`ModelLoader.loadColliderModel` which assigns a `DoubleSide` material. -/
structure Plane where
  axis : Ax
  coord : ℚ
deriving DecidableEq, Repr

/-- Signed distance component of a point along a plane's normal axis. -/
def Plane.coordOf (p : Plane) (v : V3) : ℚ :=
  match p.axis with
  | Ax.X => v.x
  | Ax.Y => v.y
  | Ax.Z => v.z

/-- Distance from a point to an axis-aligned plane (for a vertical plane
this is the player's horizontal distance to that wall mesh). -/
def Plane.dist (p : Plane) (v : V3) : ℚ :=
  |p.coordOf v - p.coord|

/-- Ray/plane intersection following three.js `Ray.intersectTriangle`:
a ray parallel to the plane misses (`DdN = 0` returns null, even when the
origin lies in the plane), otherwise the hit parameter `t` is reported
when `t ≥ 0` (the raycaster's default `near = 0` keeps a hit at `t = 0`).
Directions used by the code are cardinal unit vectors, so the division is
by `±1`. -/
def planeHit (o d : V3) (p : Plane) : Option ℚ :=
  let dn : ℚ := p.coordOf d
  if dn = 0 then none
  else
    let t := (p.coord - p.coordOf o) / dn
    if 0 ≤ t then some t else none

/-- Distance of the nearest raycast hit against the collision field,
as `intersectObjects(...)[0].distance` (hits sorted ascending). -/
def nearestHit (field : List Plane) (o d : V3) : Option ℚ :=
  (field.filterMap (planeHit o d)).foldr (fun t acc =>
    match acc with
    | none => some t
    | some u => some (min t u)) none

/-- Physics constants from `APP_CONFIG.physics`. -/
structure PhysicsCfg where
  playerHeight : ℚ
  playerRadius : ℚ
  baseMoveSpeed : ℚ
  sprintMultiplier : ℚ
  jumpVelocity : ℚ
  gravity : ℚ
  friction : ℚ
deriving DecidableEq, Repr

/-- The concrete `APP_CONFIG.physics` values of src/config/app.config.ts. -/
def appPhysics : PhysicsCfg :=
  { playerHeight := 8/5
    playerRadius := 2/5
    baseMoveSpeed := 20
    sprintMultiplier := 4
    jumpVelocity := 6
    gravity := -20
    friction := 10 }

/-- VR constants from `APP_CONFIG.vr`. -/
structure VRCfg where
  moveSpeed : ℚ
  turnSpeed : ℚ
  sprintThreshold : ℚ
deriving DecidableEq, Repr

/-- The concrete `APP_CONFIG.vr` values. -/
def appVR : VRCfg :=
  { moveSpeed := 80
    turnSpeed := 2
    sprintThreshold := 1/2 }

/-- The `KeyState` record of src/types (held intents). -/
structure KeyState where
  forward : Bool
  backward : Bool
  left : Bool
  right : Bool
  jump : Bool
  sprint : Bool
deriving DecidableEq, Repr

/-- All keys released, as in the `PhysicsManager` constructor / `reset`. -/
def KeyState.none : KeyState :=
  { forward := false, backward := false, left := false, right := false
    jump := false, sprint := false }

/-- Key codes the `PhysicsManager` key handlers switch on; `other`
collects every code with no case. -/
inductive KeyCode where
  | keyW
  | keyS
  | keyA
  | keyD
  | space
  | shiftLeft
  | other
deriving DecidableEq, Repr

namespace PhysicsManager

/-- Mutable state of the `PhysicsManager` relevant to the desktop tick:
the pointer-lock camera position (`pointerLockControls.getObject().position`),
the shared `playerVelocity`, held keys, `playerOnFloor` and the persisted
`currentMoveSpeed`. -/
structure DesktopState where
  px : ℚ
  py : ℚ
  pz : ℚ
  vx : ℚ
  vy : ℚ
  vz : ℚ
  keys : KeyState
  playerOnFloor : Bool
  currentMoveSpeed : ℚ
deriving DecidableEq, Repr

/-- Normalization of the input direction vector
(`this.playerDirection.normalize()`), whose components are always in
`{-1, 0, 1}`: a zero vector is unchanged (three.js divides by
`length || 1`), a single-axis vector already has unit length, and a
diagonal vector is scaled by `1/sqrt 2`, supplied as the parameter `rt`
since it is irrational. -/
def normDir (rt : ℚ) (dx dz : ℚ) : ℚ × ℚ :=
  if dx ≠ 0 ∧ dz ≠ 0 then (dx * rt, dz * rt) else (dx, dz)

/-- Steps 1–3 of `updatePlayerDesktop`: downward grounding probe from the
head position, vertical velocity update (jump consumption and floor snap
when grounded, gravity otherwise), and vertical position integration. -/
def desktopVertical (delta : ℚ) (field : List Plane) (s : DesktopState) :
    DesktopState :=
  let phys := appPhysics
  let probe := nearestHit field ⟨s.px, s.py, s.pz⟩ ⟨0, -1, 0⟩
  match probe with
  | some t =>
    if t < phys.playerHeight + 1/10 then
      let vy0 := max 0 s.vy
      let vy1 := if s.keys.jump then phys.jumpVelocity else vy0
      let keys1 := if s.keys.jump then { s.keys with jump := false } else s.keys
      let py1 := if t < phys.playerHeight then s.py + (phys.playerHeight - t)
                 else s.py
      { s with vy := vy1, keys := keys1, py := py1 + vy1 * delta }
    else
      let vy1 := s.vy + phys.gravity * delta
      { s with vy := vy1, py := s.py + vy1 * delta }
  | none =>
    let vy1 := s.vy + phys.gravity * delta
    { s with vy := vy1, py := s.py + vy1 * delta }

/-- Raw input direction `playerDirection.x = Number(right) - Number(left)`. -/
def dirX (k : KeyState) : ℚ :=
  (if k.right then 1 else 0) - (if k.left then 1 else 0)

/-- Raw input direction `playerDirection.z = Number(forward) - Number(backward)`. -/
def dirZ (k : KeyState) : ℚ :=
  (if k.forward then 1 else 0) - (if k.backward then 1 else 0)

/-- Steps 4–6 of `updatePlayerDesktop`: per-frame horizontal friction
damping, input-direction integration (note the code subtracts
`direction * currentMoveSpeed * delta` from the velocity), and applying
the motion through `moveRight(-vx*delta)` / `moveForward(-vz*delta)`.
The camera's horizontal right/forward unit vectors used by the
`PointerLockControls` move primitives are external camera state, passed
as `rightDir` / `fwdDir`. -/
def desktopHorizontal (rt delta : ℚ) (rightDir fwdDir : ℚ × ℚ)
    (s : DesktopState) : DesktopState :=
  let phys := appPhysics
  let vx1 := s.vx - s.vx * phys.friction * delta
  let vz1 := s.vz - s.vz * phys.friction * delta
  let dir := normDir rt (dirX s.keys) (dirZ s.keys)
  let vz2 := if s.keys.forward || s.keys.backward then
    vz1 - dir.2 * s.currentMoveSpeed * delta else vz1
  let vx2 := if s.keys.left || s.keys.right then
    vx1 - dir.1 * s.currentMoveSpeed * delta else vx1
  let moveR := -vx2 * delta
  let moveF := -vz2 * delta
  { s with
    vx := vx2, vz := vz2
    px := s.px + rightDir.1 * moveR + fwdDir.1 * moveF
    pz := s.pz + rightDir.2 * moveR + fwdDir.2 * moveF }

/-- Steps 1–6 of `updatePlayerDesktop` (everything before wall collision
resolution). -/
def desktopPreResolve (rt delta : ℚ) (rightDir fwdDir : ℚ × ℚ)
    (field : List Plane) (s : DesktopState) : DesktopState :=
  desktopHorizontal rt delta rightDir fwdDir (desktopVertical delta field s)

/-- The horizontal position/velocity components mutated by the wall
collision loop (shared verbatim between the desktop and VR ticks). -/
structure WallState where
  px : ℚ
  pz : ℚ
  vx : ℚ
  vz : ℚ
deriving DecidableEq, Repr

/-- One cardinal direction of the wall-collision loop: a ray is cast from
the (stale) `horizontalCheckPos` captured before the loop; a hit closer
than `playerRadius` pushes the position back along the axis by the
penetration depth plus `0.01` and zeroes the velocity component on that
axis. -/
def resolveDir (field : List Plane) (checkPos : V3) (d : V3)
    (w : WallState) : WallState :=
  match nearestHit field checkPos d with
  | some t =>
    if t < appPhysics.playerRadius then
      let pen := appPhysics.playerRadius - t
      { px := w.px - d.x * (pen + 1/100)
        pz := w.pz - d.z * (pen + 1/100)
        vx := if d.x ≠ 0 then 0 else w.vx
        vz := if d.z ≠ 0 then 0 else w.vz }
    else w
  | none => w

/-- Wall collision resolution of both ticks: the four cardinal rays, in
the code's order `+x, -x, +z, -z`, all originate from
`horizontalCheckPos`, a copy of the player position taken once before the
loop (pushes do not update it). -/
def resolveWalls (field : List Plane) (checkPos : V3) (w : WallState) :
    WallState :=
  (resolveDir field checkPos ⟨0, 0, -1⟩
    (resolveDir field checkPos ⟨0, 0, 1⟩
      (resolveDir field checkPos ⟨-1, 0, 0⟩
        (resolveDir field checkPos ⟨1, 0, 0⟩ w))))

/-- Step 6 of `updatePlayerDesktop`: final ground check.  The downward
hit point's `y` is `origin.y - t`, so the snap sets
`py := (py - t) + playerHeight`. -/
def desktopFinalGround (field : List Plane) (s : DesktopState) :
    DesktopState :=
  let phys := appPhysics
  match nearestHit field ⟨s.px, s.py, s.pz⟩ ⟨0, -1, 0⟩ with
  | some t =>
    if t < phys.playerHeight + 1/10 then
      if t < phys.playerHeight then
        { s with playerOnFloor := true
                 py := (s.py - t) + phys.playerHeight
                 vy := if s.vy < 0 then 0 else s.vy }
      else { s with playerOnFloor := true }
    else { s with playerOnFloor := false }
  | none => { s with playerOnFloor := false }

/-- The `updatePlayerDesktop` per-frame tick of PhysicsManager.ts.  A tick
with pointer lock disengaged is a no-op; otherwise the fixed order is
vertical update, horizontal damping + input + move, wall resolution from
the post-move half-height check position, final ground check. -/
def updatePlayerDesktop (rt delta : ℚ) (isLocked : Bool)
    (rightDir fwdDir : ℚ × ℚ) (field : List Plane) (s : DesktopState) :
    DesktopState :=
  if isLocked then
    let s1 := desktopPreResolve rt delta rightDir fwdDir field s
    let checkPos : V3 := ⟨s1.px, s1.py - appPhysics.playerHeight / 2, s1.pz⟩
    let w := resolveWalls field checkPos ⟨s1.px, s1.pz, s1.vx, s1.vz⟩
    desktopFinalGround field
      { s1 with px := w.px, pz := w.pz, vx := w.vx, vz := w.vz }
  else s

/-- The `handleKeyDown` switch: movement keys are recorded
unconditionally; Space arms the pending-jump bit only while
`playerOnFloor`; ShiftLeft toggles sprint and persists the sprint-scaled
`currentMoveSpeed`. -/
def handleKeyDown (c : KeyCode) (s : DesktopState) : DesktopState :=
  match c with
  | KeyCode.keyW => { s with keys := { s.keys with forward := true } }
  | KeyCode.keyS => { s with keys := { s.keys with backward := true } }
  | KeyCode.keyA => { s with keys := { s.keys with left := true } }
  | KeyCode.keyD => { s with keys := { s.keys with right := true } }
  | KeyCode.space =>
    if s.playerOnFloor then { s with keys := { s.keys with jump := true } }
    else s
  | KeyCode.shiftLeft =>
    { s with keys := { s.keys with sprint := true }
             currentMoveSpeed := appPhysics.baseMoveSpeed *
               appPhysics.sprintMultiplier }
  | KeyCode.other => s

/-- The `handleKeyUp` switch. -/
def handleKeyUp (c : KeyCode) (s : DesktopState) : DesktopState :=
  match c with
  | KeyCode.keyW => { s with keys := { s.keys with forward := false } }
  | KeyCode.keyS => { s with keys := { s.keys with backward := false } }
  | KeyCode.keyA => { s with keys := { s.keys with left := false } }
  | KeyCode.keyD => { s with keys := { s.keys with right := false } }
  | KeyCode.space => { s with keys := { s.keys with jump := false } }
  | KeyCode.shiftLeft =>
    { s with keys := { s.keys with sprint := false }
             currentMoveSpeed := appPhysics.baseMoveSpeed }
  | KeyCode.other => s

/-- The mutable state touched by `updatePlayerVR`: the rig group's
position and yaw (the rig's rotation about the vertical axis, advanced by
`playerRig.rotateY`), and the shared `playerVelocity`. -/
structure VRState where
  rx : ℚ
  ry : ℚ
  rz : ℚ
  rotY : ℚ
  vx : ℚ
  vy : ℚ
  vz : ℚ
deriving DecidableEq, Repr

/-- Gamepad data read by `updatePlayerVR`: stick axes 2 and 3 (the code's
`axes[2] || 0` / `axes[3] || 0`, so a missing axis is 0) and the value of
`buttons[0]` (0 when the button is absent). -/
structure Gamepad where
  ax2 : ℚ
  ax3 : ℚ
  trigger : ℚ
deriving DecidableEq, Repr

/-- Step 1 of `updatePlayerVR` (vertical movement): probe downward from
0.1 above the rig origin; grounded iff the nearest hit is closer than
0.15, in which case the rig is snapped to `point.y + 0.05` where
`point.y = (ry + 0.1) - t`; otherwise gravity is integrated. -/
def vrVertical (delta : ℚ) (field : List Plane) (s : VRState) : VRState :=
  match nearestHit field ⟨s.rx, s.ry + 1/10, s.rz⟩ ⟨0, -1, 0⟩ with
  | some t =>
    if t < 3/20 then
      { s with vy := max 0 s.vy, ry := (s.ry + 1/10 - t) + 1/20 }
    else { s with vy := s.vy + appPhysics.gravity * delta }
  | none => { s with vy := s.vy + appPhysics.gravity * delta }

/-- Step 2 of `updatePlayerVR`: per-frame horizontal friction damping. -/
def vrFriction (delta : ℚ) (s : VRState) : VRState :=
  { s with vx := s.vx - s.vx * appPhysics.friction * delta
           vz := s.vz - s.vz * appPhysics.friction * delta }

/-- Turning in step 3 of `updatePlayerVR`: the turn stick's horizontal
axis (`axes[2] || 0`) rotates the rig about the vertical axis by
`-turnAxis * delta * turnSpeed`, gated by the `|axis| > 0.1` deadzone;
nothing else in the tick touches the rig yaw. -/
def vrTurn (delta : ℚ) (turnG : Option Gamepad) (s : VRState) : VRState :=
  match turnG with
  | some g =>
    if |g.ax2| > 1/10 then
      { s with rotY := s.rotY + (-g.ax2 * delta * appVR.turnSpeed) }
    else s
  | none => s

/-- Movement input of step 3 of `updatePlayerVR`: the movement stick axes
are projected onto the camera's horizontal forward/right vectors, scaled
by the VR move speed (sprint-multiplied while `buttons[0]` exceeds the
threshold) and added to the horizontal velocity. -/
def vrMove (delta : ℚ) (camFwd camRight : ℚ × ℚ) (moveG : Option Gamepad)
    (s : VRState) : VRState :=
  let mdx := match moveG with | some g => g.ax2 | none => 0
  let mdz := match moveG with | some g => g.ax3 | none => 0
  let moveSpeed := match moveG with
    | some g =>
      if g.trigger > appVR.sprintThreshold then
        appVR.moveSpeed * appPhysics.sprintMultiplier
      else appVR.moveSpeed
    | none => appVR.moveSpeed
  let fwdX := camFwd.1 * (-mdz * moveSpeed * delta)
  let fwdZ := camFwd.2 * (-mdz * moveSpeed * delta)
  let rightX := camRight.1 * (mdx * moveSpeed * delta)
  let rightZ := camRight.2 * (mdx * moveSpeed * delta)
  { s with vx := s.vx + fwdX + rightX, vz := s.vz + fwdZ + rightZ }

/-- Step 4 of `updatePlayerVR`: apply velocity to the rig position. -/
def vrApplyPos (delta : ℚ) (s : VRState) : VRState :=
  { s with rx := s.rx + s.vx * delta
           rz := s.rz + s.vz * delta
           ry := s.ry + s.vy * delta }

/-- Step 5 of `updatePlayerVR`: the shared cardinal-ray wall resolution,
probed from 1.0 above the rig origin. -/
def vrResolve (field : List Plane) (s : VRState) : VRState :=
  let checkPos : V3 := ⟨s.rx, s.ry + 1, s.rz⟩
  let w := resolveWalls field checkPos ⟨s.rx, s.rz, s.vx, s.vz⟩
  { s with rx := w.px, rz := w.pz, vx := w.vx, vz := w.vz }

/-- Step 6 of `updatePlayerVR`: final floor check and snap. -/
def vrFinalFloor (field : List Plane) (s : VRState) : VRState :=
  match nearestHit field ⟨s.rx, s.ry + 1/10, s.rz⟩ ⟨0, -1, 0⟩ with
  | some t =>
    if t < 3/20 then
      { s with ry := (s.ry + 1/10 - t) + 1/20
               vy := if s.vy < 0 then 0 else s.vy }
    else s
  | none => s

/-- The `updatePlayerVR` per-frame tick of PhysicsManager.ts.  `moveG` is
the left-hand controller's gamepad and `turnG` the right-hand one's (the
handedness scan; `none` when that controller or its gamepad is missing).
`camFwd` is the external camera's world direction with `y` zeroed and
normalized, `camRight` its cross product with `up` normalized; both are
horizontal unit vectors supplied by the external camera. -/
def updatePlayerVR (delta : ℚ) (camFwd camRight : ℚ × ℚ)
    (field : List Plane) (moveG turnG : Option Gamepad) (s : VRState) :
    VRState :=
  vrFinalFloor field
    (vrResolve field
      (vrApplyPos delta
        (vrMove delta camFwd camRight moveG
          (vrTurn delta turnG
            (vrFriction delta
              (vrVertical delta field s))))))

end PhysicsManager

namespace AudioManager

/-- Mutable state of `AudioManager`: the loaded sound-buffer table (an
entry is `none` for a failed or absent sound) and the list of live
`THREE.Audio` objects.  A sound is recorded as the triple of the buffer
index it plays plus the loop flag and volume it was configured with. -/
structure AMState where
  soundBuffers : List (Option Unit)
  activeSounds : List (ℕ × Bool × ℚ)
deriving DecidableEq, Repr

/-- The `stopAll` method: stops every playing sound and clears the list. -/
def stopAll (s : AMState) : AMState :=
  { s with activeSounds := [] }

/-- The `playAudio` method: returns immediately when the requested buffer
is absent; otherwise stops all previous sounds and then creates, starts
and records exactly one new sound. -/
def playAudio (index : ℕ) (loop : Bool) (volume : ℚ) (s : AMState) :
    AMState :=
  match s.soundBuffers.get? index with
  | some (some _) =>
    let s1 := stopAll s
    { s1 with activeSounds := s1.activeSounds ++ [(index, loop, volume)] }
  | _ => s

/-- The `fadeOut` method: ramps gains down and clears the list. -/
def fadeOut (s : AMState) : AMState :=
  { s with activeSounds := [] }

/-- One externally triggerable `AudioManager` call. -/
inductive AudioOp where
  | play (index : ℕ) (loop : Bool) (volume : ℚ)
  | stop
  | fade
deriving DecidableEq, Repr

/-- Run a sequence of `AudioManager` calls. -/
def runOps (ops : List AudioOp) (s : AMState) : AMState :=
  match ops with
  | [] => s
  | AudioOp.play i l v :: rest => runOps rest (playAudio i l v s)
  | AudioOp.stop :: rest => runOps rest (stopAll s)
  | AudioOp.fade :: rest => runOps rest (fadeOut s)

/-- Initial `AudioManager` state with the repository's sound table
(`APP_CONFIG.assets.sounds` is six `null` entries, which `loadAllSounds`
stores as absent buffers) and, per the constructor, no active sounds. -/
def initAM : AMState :=
  { soundBuffers := List.replicate 6 none, activeSounds := [] }

end AudioManager

/-- A toggle-button descriptor from `APP_CONFIG` (`{name, id}`). -/
structure ButtonCfg where
  name : String
  id : String
deriving DecidableEq, Repr

/-- A stored interior camera position of scene 4. -/
structure CamPos where
  pos : V3
  lookAt : V3
  fov : ℚ
deriving DecidableEq, Repr

/-- The control mode passed as `type` to `CameraManager.setupCamera`. -/
inductive CamKind where
  | orbit
  | staticOrbit
  | pointerlock
deriving DecidableEq, Repr

/-- Camera projection kind. -/
inductive CamProj where
  | perspective
  | orthographic
deriving DecidableEq, Repr

/-- The argument record of `CameraManager.setupCamera`, with `Option` for
fields a call site may omit. -/
structure CamCfg where
  ctype : CamKind
  cameraType : Option CamProj
  pos : Option V3
  lookAt : Option V3
  fov : Option ℚ
  autoRotate : Option Bool
  autoRotateSpeed : Option ℚ
  enablePan : Option Bool
  enableZoom : Option Bool
  enableRotate : Option Bool
deriving DecidableEq, Repr

/-- One `SceneConfig` entry of `APP_CONFIG.scenes`. -/
structure SceneCfg where
  models : List ℕ
  cameraType : CamProj
  autoRotate : Option Bool
  autoRotateSpeed : Option ℚ
  enableUserRotation : Option Bool
  enableZoom : Option Bool
  enablePan : Option Bool
  cameraPosition : Option V3
  cameraLookAt : Option V3
  buttons : Option (List ButtonCfg)
  cameraPositions : Option (List CamPos)
deriving DecidableEq, Repr

/-- The `APP_CONFIG.scenes` catalog (keys 0..5; any other index is
absent, as for a missing property of the config object literal). -/
def appScenes (i : ℤ) : Option SceneCfg :=
  if i = 0 then some
    { models := [0, 4], cameraType := CamProj.orthographic
      autoRotate := some true, autoRotateSpeed := some 1
      enableUserRotation := some false, enableZoom := some false
      enablePan := some false
      cameraPosition := some ⟨0, 20, 15⟩, cameraLookAt := some ⟨0, 1, 0⟩
      buttons := none, cameraPositions := none }
  else if i = 1 then some
    { models := [0, 4], cameraType := CamProj.orthographic
      autoRotate := some true, autoRotateSpeed := some 1
      enableUserRotation := some true, enableZoom := some true
      enablePan := some false
      cameraPosition := some ⟨0, 30, 15⟩, cameraLookAt := some ⟨0, 4, 0⟩
      buttons := some [⟨"Surrounding", "surrounding"⟩,
        ⟨"Transportation", "transportation"⟩, ⟨"Units", "units"⟩]
      cameraPositions := none }
  else if i = 2 then some
    { models := [0, 3, 2, 4], cameraType := CamProj.orthographic
      autoRotate := some true, autoRotateSpeed := some 1
      enableUserRotation := some true, enableZoom := some true
      enablePan := some false
      cameraPosition := some ⟨0, 30, 15⟩, cameraLookAt := some ⟨0, 4, 0⟩
      buttons := some [⟨"Option 1 (M1+M4)", "view1"⟩,
        ⟨"Option 2 (M3+M5)", "view2"⟩]
      cameraPositions := none }
  else if i = 3 then some
    { models := [2, 5], cameraType := CamProj.orthographic
      autoRotate := some false, autoRotateSpeed := none
      enableUserRotation := some true, enableZoom := some true
      enablePan := some false
      cameraPosition := some ⟨15, 8, -15⟩, cameraLookAt := some ⟨0, 4, 0⟩
      buttons := none, cameraPositions := none }
  else if i = 4 then some
    { models := [6], cameraType := CamProj.perspective
      autoRotate := some false, autoRotateSpeed := none
      enableUserRotation := some true, enableZoom := some true
      enablePan := some false
      cameraPosition := none, cameraLookAt := none
      buttons := some [⟨"Salon", "cam1"⟩, ⟨"Bathroom", "cam2"⟩,
        ⟨"Bedroom 1", "cam3"⟩, ⟨"Bedroom 1 WC", "cam4"⟩,
        ⟨"Bedroom 2", "cam5"⟩, ⟨"Bedroom 2 WC", "cam6"⟩]
      cameraPositions := some [
        ⟨⟨1, 8/5, 8/5⟩, ⟨1, 8/5, 3/2⟩, 80⟩,
        ⟨⟨-2, 8/5, 31/10⟩, ⟨-21/10, 8/5, 16/5⟩, 80⟩,
        ⟨⟨-2, 8/5, 0⟩, ⟨-21/10, 8/5, -1/10⟩, 80⟩,
        ⟨⟨-2, 8/5, 21/10⟩, ⟨-21/10, 8/5, 11/5⟩, 80⟩,
        ⟨⟨22/5, 8/5, 0⟩, ⟨9/2, 8/5, -1/10⟩, 80⟩,
        ⟨⟨39/10, 8/5, 37/10⟩, ⟨4, 8/5, 19/5⟩, 80⟩] }
  else if i = 5 then some
    { models := [6, 7], cameraType := CamProj.perspective
      autoRotate := none, autoRotateSpeed := none
      enableUserRotation := none, enableZoom := none, enablePan := none
      cameraPosition := some ⟨7/5, 8/5, -3/5⟩, cameraLookAt := none
      buttons := none, cameraPositions := none }
  else none

namespace UIManager

/-- Observable DOM state owned by `UIManager`.  The six fixed toggle
buttons are modelled by their persistent `textContent` (stale text
survives hiding), the number currently displayed (`updateToggleButtons`
shows a `display: block` prefix of the six), and the index carrying the
`selected` class, if any. -/
structure UIState where
  sceneLoading : Bool
  backgroundImg : Bool
  infoButtons : Bool
  instructions : Bool
  startButton : Option String
  fullscreenHidden : Bool
  btnTexts : List String
  btnCount : ℕ
  selected : Option ℕ
  leftPanel : Option String
  rightPanel : Option String
  description : Option String
deriving DecidableEq, Repr

/-- The `updateToggleButtons` method: for a `null` argument all six
buttons are hidden; otherwise the first `buttons.length` get the new
labels and are shown deselected, the rest are hidden, and the first
button receives the `selected` class. -/
def updateToggleButtons (bs : Option (List ButtonCfg)) (u : UIState) :
    UIState :=
  match bs with
  | none => { u with btnCount := 0, selected := none }
  | some l =>
    let texts := (List.range 6).map (fun i =>
      match l.get? i with
      | some b => b.name
      | none => (u.btnTexts.get? i).getD "")
    { u with btnTexts := texts, btnCount := min l.length 6
             selected := if l.length > 0 then some 0 else none }

/-- The `selectToggleButton` method: class `selected` is toggled to
`i == index` on each of the six buttons, so an index outside 0..5 leaves
every button deselected. -/
def selectToggleButton (index : ℕ) (u : UIState) : UIState :=
  { u with selected := if index < 6 then some index else none }

/-- The `updateHtmlPanels` method (a `null` identifier hides the panel). -/
def updateHtmlPanels (l r : Option String) (u : UIState) : UIState :=
  { u with leftPanel := l, rightPanel := r }

/-- The `textContent` read `buttons[index]?.textContent` performed by
`handleVariantClick`; an index beyond the six buttons yields JavaScript
`undefined`, which a template literal renders as the string below. -/
def btnTextAt (u : UIState) (index : ℕ) : String :=
  (u.btnTexts.get? index).getD "undefined"

end UIManager

namespace ModelLoader

/-- One entry of `loadedModels`: the catalog index of the asset it was
loaded from, the optional id stored in `userData`, and visibility. -/
structure LoadedModel where
  modelIdx : ℕ
  id : Option String
  visible : Bool
deriving DecidableEq, Repr

/-- Mutable state of `ModelLoader`: the loaded models and the collider
mesh list feeding the CollisionField. -/
structure MLState where
  loadedModels : List LoadedModel
  colliderMeshes : List ℕ
deriving DecidableEq, Repr

/-- A load oracle: which asset indices load successfully this run (a
`false` entry stands for a network/parse rejection of that model URL). -/
def LoadOracle := ℕ → Bool

/-- The `loadModel` call for one asset: on success the model is added to
the scene and recorded; on failure the promise rejects with an error
identifying the asset. -/
def loadModel (oracle : LoadOracle) (idx : ℕ) (id : Option String)
    (visible : Bool) (m : MLState) : MLState × Option ℕ :=
  if oracle idx then
    ({ m with loadedModels := m.loadedModels ++ [⟨idx, id, visible⟩] }, none)
  else (m, some idx)

/-- A `Promise.all` over several `loadModel` calls: every fulfilled load
adds its model, and the aggregate rejects with the first rejection (all
requests are issued concurrently; completion order is not observable to
any claim, so fulfilled loads are recorded in request order). -/
def loadMany (oracle : LoadOracle) (specs : List (ℕ × Option String × Bool))
    (m : MLState) : MLState × Option ℕ :=
  match specs with
  | [] => (m, none)
  | (idx, id, vis) :: rest =>
    let (m1, e1) := loadModel oracle idx id vis m
    let (m2, e2) := loadMany oracle rest m1
    (m2, match e1 with | some e => some e | none => e2)

/-- The `loadColliderModel` call: the model is added invisible and its
meshes join `colliderMeshes`. -/
def loadColliderModel (oracle : LoadOracle) (idx : ℕ) (m : MLState) :
    MLState × Option ℕ :=
  if oracle idx then
    ({ loadedModels := m.loadedModels ++ [⟨idx, none, false⟩]
       colliderMeshes := m.colliderMeshes ++ [idx] }, none)
  else (m, some idx)

/-- The `unloadAll` method: disposes everything and clears both lists. -/
def unloadAll (_m : MLState) : MLState :=
  { loadedModels := [], colliderMeshes := [] }

/-- The `setModelVisibility` method: sets visibility of the first model
whose stored id matches; a miss only logs a warning. -/
def setModelVisibility (id : String) (visible : Bool) (m : MLState) :
    MLState :=
  let rec go : List LoadedModel → List LoadedModel
    | [] => []
    | l :: rest =>
      if l.id = some id then { l with visible := visible } :: rest
      else l :: go rest
  { m with loadedModels := go m.loadedModels }

/-- Visibility of the first model with the given id, if any. -/
def getVisibility (id : String) (m : MLState) : Option Bool :=
  (m.loadedModels.find? (fun l => l.id = some id)).map (fun l => l.visible)

end ModelLoader

namespace SequenceManager

/-- Process-wide state driven by `SequenceManager`: its own
`currentScene` index plus the collaborator state it mutates.  `reloaded`
records that `window.location.reload()` was triggered. -/
structure SeqState where
  currentScene : ℤ
  ui : UIManager.UIState
  models : ModelLoader.MLState
  camera : Option CamCfg
  audio : AudioManager.AMState
  reloaded : Bool
deriving DecidableEq, Repr

/-- The `CameraManager.setupCamera` call as observed state: the last
configuration applied. -/
def setupCamera (c : CamCfg) (s : SeqState) : SeqState :=
  { s with camera := some c }

/-- The scene-4 `panelIds` table of `handleVariantClick`. -/
def scene4PanelIds : List (String × String) :=
  [("html_scene4_cam1_left", "html_scene4_cam1_right"),
   ("html_scene4_cam2_left", "html_scene4_cam2_right"),
   ("html_scene4_cam3_left", "html_scene4_cam3_right"),
   ("html_scene4_cam4_left", "html_scene4_cam4_right"),
   ("html_scene4_cam5_left", "html_scene4_cam5_right"),
   ("html_scene4_cam6_left", "html_scene4_cam6_right")]

/-- Case 1 of the `handleVariantClick` switch (conceptual models):
panel swap for indices 0..2, then an unconditional description update
reading `buttons[index]?.textContent`. -/
def scene1Click (index : ℕ) (s : SeqState) : SeqState :=
  let u1 :=
    if index = 0 then
      UIManager.updateHtmlPanels (some "html_scene1_opt1_left")
        (some "html_scene1_opt1_right") s.ui
    else if index = 1 then
      UIManager.updateHtmlPanels (some "html_scene1_opt2_left")
        (some "html_scene1_opt2_right") s.ui
    else if index = 2 then
      UIManager.updateHtmlPanels (some "html_scene1_opt3_left")
        (some "html_scene1_opt3_right") s.ui
    else s.ui
  let d1 := some ("Info for " ++ UIManager.btnTextAt u1 index)
  { s with ui := { u1 with description := d1 } }

/-- Case 2 of the `handleVariantClick` switch (scene 2 views): the
mutually exclusive visibility split (`index === 0` shows m1+m4, any
other index shows m3+m5), panel swap for indices 0..1, then the
description update. -/
def scene2Click (index : ℕ) (s : SeqState) : SeqState :=
  let showView1 := index = 0
  let m1 := ModelLoader.setModelVisibility "m1" showView1 s.models
  let m2 := ModelLoader.setModelVisibility "m4" showView1 m1
  let m3 := ModelLoader.setModelVisibility "m3" (!showView1) m2
  let m4 := ModelLoader.setModelVisibility "m5" (!showView1) m3
  let u1 :=
    if index = 0 then
      UIManager.updateHtmlPanels (some "html_scene2_opt1_left")
        (some "html_scene2_opt1_right") s.ui
    else if index = 1 then
      UIManager.updateHtmlPanels (some "html_scene2_opt2_left")
        (some "html_scene2_opt2_right") s.ui
    else s.ui
  let d1 := some ("Showing " ++ UIManager.btnTextAt u1 index)
  { s with models := m4, ui := { u1 with description := d1 } }

/-- Case 4 of the `handleVariantClick` switch (scene 4 camera
positions): guarded by `index < cameraPositions.length`, reconfigure the
camera to the indexed placement, swap the matching panel pair and update
the description; out of range nothing happens in this case. -/
def scene4Click (index : ℕ) (s : SeqState) : SeqState :=
  match (appScenes 4).bind (fun c => c.cameraPositions) with
  | some camPositions =>
    if index < camPositions.length then
      match camPositions.get? index with
      | some camPos =>
        let s1 := setupCamera
          { ctype := CamKind.staticOrbit
            cameraType := some CamProj.perspective
            pos := some camPos.pos, lookAt := some camPos.lookAt
            fov := some camPos.fov
            autoRotate := some false, autoRotateSpeed := none
            enablePan := some false, enableZoom := some true
            enableRotate := some true } s
        let u1 := match scene4PanelIds.get? index with
          | some (l, r) => UIManager.updateHtmlPanels (some l) (some r) s1.ui
          | none => s1.ui
        let d1 := some ("Camera: " ++ UIManager.btnTextAt u1 index)
        { s1 with ui := { u1 with description := d1 } }
      | none => s
    else s
  | none => s

/-- The `handleVariantClick` entry point.  It always rewrites the toggle
highlight first (`selectToggleButton`), then switches on the current
scene: cases 1, 2 and 4 above; every other scene does nothing further. -/
def handleVariantClick (index : ℕ) (s : SeqState) : SeqState :=
  let s0 := { s with ui := UIManager.selectToggleButton index s.ui }
  if s0.currentScene = 1 then scene1Click index s0
  else if s0.currentScene = 2 then scene2Click index s0
  else if s0.currentScene = 4 then scene4Click index s0
  else s0

/-- The `loadScene0` routine (overview): hide instructions, relabel the
start button, discard all models, load the scene's declared models
visible, configure the auto-rotating orthographic orbit camera, set the
panels and start audio track 0.  A load rejection aborts the remainder. -/
def loadScene0 (oracle : ModelLoader.LoadOracle) (cfg : SceneCfg)
    (s : SeqState) : SeqState × Option ℕ :=
  let u1 := { s.ui with instructions := false, startButton := some "Start" }
  let m0 := ModelLoader.unloadAll s.models
  let (m1, err) := ModelLoader.loadMany oracle
    (cfg.models.map (fun i => (i, none, true))) m0
  match err with
  | some e => ({ s with ui := u1, models := m1 }, some e)
  | none =>
    let s1 := setupCamera
      { ctype := CamKind.orbit, cameraType := some cfg.cameraType
        pos := cfg.cameraPosition, lookAt := cfg.cameraLookAt, fov := none
        autoRotate := cfg.autoRotate, autoRotateSpeed := cfg.autoRotateSpeed
        enablePan := cfg.enablePan, enableZoom := cfg.enableZoom
        enableRotate := cfg.enableUserRotation }
      { s with ui := u1, models := m1 }
    let u2 := UIManager.updateHtmlPanels (some "html_scene0_left")
      (some "html_scene0_right") s1.ui
    ({ s1 with ui := u2, audio := AudioManager.playAudio 0 true (1/2) s1.audio },
     none)

/-- The `loadScene1` routine (concept toggles): no loads — the models of
scene 0 stay — only camera, toggle buttons, panels and audio. -/
def loadScene1 (cfg : SceneCfg) (s : SeqState) : SeqState × Option ℕ :=
  let u1 := { s.ui with startButton := some "Next Scene" }
  let s1 := setupCamera
    { ctype := CamKind.orbit, cameraType := some cfg.cameraType
      pos := cfg.cameraPosition, lookAt := cfg.cameraLookAt, fov := none
      autoRotate := cfg.autoRotate, autoRotateSpeed := cfg.autoRotateSpeed
      enablePan := cfg.enablePan, enableZoom := cfg.enableZoom
      enableRotate := cfg.enableUserRotation } { s with ui := u1 }
  let u2 := match cfg.buttons with
    | some bs => UIManager.updateToggleButtons (some bs) s1.ui
    | none => s1.ui
  let u3 := UIManager.updateHtmlPanels (some "html_scene1_opt1_left")
    (some "html_scene1_opt1_right") u2
  ({ s1 with ui := u3, audio := AudioManager.playAudio 1 true (1/2) s1.audio },
   none)

/-- The `loadScene2` routine (A/B comparison): discard everything,
reload the four variants hidden under ids m1/m4/m3/m5, set buttons and
camera, then establish the initial split via `handleVariantClick 0`. -/
def loadScene2 (oracle : ModelLoader.LoadOracle) (cfg : SceneCfg)
    (s : SeqState) : SeqState × Option ℕ :=
  let m0 := ModelLoader.unloadAll s.models
  let (m1, err) := ModelLoader.loadMany oracle
    [(0, some "m1", false), (3, some "m4", false),
     (2, some "m3", false), (4, some "m5", false)] m0
  match err with
  | some e => ({ s with models := m1 }, some e)
  | none =>
    let u1 := match cfg.buttons with
      | some bs => UIManager.updateToggleButtons (some bs) s.ui
      | none => s.ui
    let s1 := setupCamera
      { ctype := CamKind.orbit, cameraType := some cfg.cameraType
        pos := cfg.cameraPosition, lookAt := cfg.cameraLookAt, fov := none
        autoRotate := cfg.autoRotate, autoRotateSpeed := cfg.autoRotateSpeed
        enablePan := cfg.enablePan, enableZoom := cfg.enableZoom
        enableRotate := cfg.enableUserRotation }
      { s with ui := u1, models := m1 }
    let s2 := handleVariantClick 0 s1
    ({ s2 with audio := AudioManager.playAudio 2 true (1/2) s2.audio }, none)

/-- The `loadScene3` routine (structural orbit): discard, reload the
declared pair visible, clear toggle buttons, camera, panels, audio. -/
def loadScene3 (oracle : ModelLoader.LoadOracle) (cfg : SceneCfg)
    (s : SeqState) : SeqState × Option ℕ :=
  let m0 := ModelLoader.unloadAll s.models
  let (m1, err) := ModelLoader.loadMany oracle
    (cfg.models.map (fun i => (i, none, true))) m0
  match err with
  | some e => ({ s with models := m1 }, some e)
  | none =>
    let u1 := UIManager.updateToggleButtons none s.ui
    let s1 := setupCamera
      { ctype := CamKind.orbit, cameraType := some cfg.cameraType
        pos := cfg.cameraPosition, lookAt := cfg.cameraLookAt, fov := none
        autoRotate := cfg.autoRotate, autoRotateSpeed := cfg.autoRotateSpeed
        enablePan := cfg.enablePan, enableZoom := cfg.enableZoom
        enableRotate := cfg.enableUserRotation }
      { s with ui := u1, models := m1 }
    let u2 := UIManager.updateHtmlPanels (some "html_scene3_left")
      (some "html_scene3_right") s1.ui
    ({ s1 with ui := u2, audio := AudioManager.playAudio 3 true (1/2) s1.audio },
     none)

/-- The `loadScene4` routine (interior tour): discard, reload the solo
interior model, set the six room buttons, then jump to the first camera
position via `handleVariantClick 0`. -/
def loadScene4 (oracle : ModelLoader.LoadOracle) (cfg : SceneCfg)
    (s : SeqState) : SeqState × Option ℕ :=
  let m0 := ModelLoader.unloadAll s.models
  let (m1, err) := ModelLoader.loadModel oracle 6 none true m0
  match err with
  | some e => ({ s with models := m1 }, some e)
  | none =>
    let u1 := match cfg.buttons with
      | some bs => UIManager.updateToggleButtons (some bs) s.ui
      | none => s.ui
    let s1 := handleVariantClick 0 { s with ui := u1, models := m1 }
    ({ s1 with audio := AudioManager.playAudio 4 true (1/2) s1.audio }, none)

/-- The `loadScene5` routine (walkthrough): discard, reload the interior
model plus the invisible collider, clear toggle buttons, relabel the
start button Restart, configure the pointer-lock camera, panels, audio. -/
def loadScene5 (oracle : ModelLoader.LoadOracle) (cfg : SceneCfg)
    (s : SeqState) : SeqState × Option ℕ :=
  let m0 := ModelLoader.unloadAll s.models
  let (m1, e1) := ModelLoader.loadModel oracle 6 none true m0
  let (m2, e2) := ModelLoader.loadColliderModel oracle 7 m1
  let err : Option ℕ := match e1 with | some e => some e | none => e2
  match err with
  | some e => ({ s with models := m2 }, some e)
  | none =>
    let u1 := UIManager.updateToggleButtons none s.ui
    let u2 := { u1 with startButton := some "Restart" }
    let s1 := setupCamera
      { ctype := CamKind.pointerlock, cameraType := none
        pos := cfg.cameraPosition, lookAt := none, fov := none
        autoRotate := none, autoRotateSpeed := none
        enablePan := none, enableZoom := none, enableRotate := none }
      { s with ui := u2, models := m2 }
    let u3 := UIManager.updateHtmlPanels (some "html_scene5_left")
      (some "html_scene5_right") s1.ui
    ({ s1 with ui := u3, audio := AudioManager.playAudio 5 true (1/2) s1.audio },
     none)

/-- The `loadScene` dispatch on the current scene index. -/
def loadScene (oracle : ModelLoader.LoadOracle) (cfg : SceneCfg)
    (s : SeqState) : SeqState × Option ℕ :=
  if s.currentScene = 0 then loadScene0 oracle cfg s
  else if s.currentScene = 1 then loadScene1 cfg s
  else if s.currentScene = 2 then loadScene2 oracle cfg s
  else if s.currentScene = 3 then loadScene3 oracle cfg s
  else if s.currentScene = 4 then loadScene4 oracle cfg s
  else if s.currentScene = 5 then loadScene5 oracle cfg s
  else (s, none)

/-- Entry sequence of `runNextScene`: increment the index, switch the UI
into loading state (loading indicator and background image on, info
controls and panels and description off) and stop all audio. -/
def seqPrepare (s : SeqState) : SeqState :=
  let u1 := { s.ui with sceneLoading := true, backgroundImg := true
                        infoButtons := false
                        leftPanel := none, rightPanel := none
                        description := none }
  { s with currentScene := s.currentScene + 1, ui := u1
           audio := AudioManager.stopAll s.audio }

/-- The `finally` block of `runNextScene`, which runs on the success,
failure and restart paths alike. -/
def seqFinally (isVR : Bool) (s : SeqState) : SeqState :=
  { s with ui := { s.ui with
      sceneLoading := false, backgroundImg := false, infoButtons := true
      fullscreenHidden := if isVR then true else s.ui.fullscreenHidden } }

/-- The `runNextScene` transition: `seqPrepare`, then either the restart
sentinel (`window.location.reload()` exactly when the new index is 6),
nothing for any other index without a scene config, or the step's load
routine; the `finally` cleanup runs on every path, and a load error is
re-raised to the caller unchanged. -/
def runNextScene (oracle : ModelLoader.LoadOracle) (isVR : Bool)
    (s : SeqState) : SeqState × Option ℕ :=
  let s1 := seqPrepare s
  let (s2, err) := match appScenes s1.currentScene with
    | none =>
      (if s1.currentScene = 6 then { s1 with reloaded := true } else s1, none)
    | some cfg => loadScene oracle cfg s1
  (seqFinally isVR s2, err)

/-- Initial session state: `currentScene = -1` (the `SequenceManager`
field initializer), a fresh UI, no models, no camera configured yet and
the repository's empty sound table. -/
def initState : SeqState :=
  { currentScene := -1
    ui := { sceneLoading := false, backgroundImg := false
            infoButtons := false, instructions := true
            startButton := none, fullscreenHidden := false
            btnTexts := ["", "", "", "", "", ""], btnCount := 0
            selected := none, leftPanel := none, rightPanel := none
            description := none }
    models := { loadedModels := [], colliderMeshes := [] }
    camera := none
    audio := AudioManager.initAM
    reloaded := false }

/-- One successful `advanceScene` event on the desktop path: every asset
load fulfils. -/
def advanceOk (s : SeqState) : SeqState :=
  (runNextScene (fun _ => true) false s).1

end SequenceManager

section SequencerLemmas

open SequenceManager

lemma scene1Click_currentScene (i : ℕ) (s : SeqState) :
    (scene1Click i s).currentScene = s.currentScene := rfl

lemma scene2Click_currentScene (i : ℕ) (s : SeqState) :
    (scene2Click i s).currentScene = s.currentScene := rfl

lemma scene4Click_currentScene (i : ℕ) (s : SeqState) :
    (scene4Click i s).currentScene = s.currentScene := by
  unfold scene4Click setupCamera
  repeat' split
  all_goals rfl

lemma handleVariantClick_currentScene (i : ℕ) (s : SeqState) :
    (handleVariantClick i s).currentScene = s.currentScene := by
  unfold handleVariantClick
  dsimp only
  repeat' split
  all_goals
    simp [scene1Click_currentScene, scene2Click_currentScene,
      scene4Click_currentScene]

lemma loadScene_currentScene (oracle : ModelLoader.LoadOracle)
    (cfg : SceneCfg) (s : SeqState) :
    ((loadScene oracle cfg s).1).currentScene = s.currentScene := by
  unfold loadScene loadScene0 loadScene1 loadScene2 loadScene3 loadScene4
    loadScene5 setupCamera
  repeat' split
  all_goals dsimp only
  all_goals repeat' split
  all_goals simp_all [handleVariantClick_currentScene]

end SequencerLemmas
section SequencerClaims

open SequenceManager

lemma seqFinally_fields (isVR : Bool) (s : SeqState) :
    (seqFinally isVR s).currentScene = s.currentScene ∧
    (seqFinally isVR s).ui.sceneLoading = false ∧
    (seqFinally isVR s).ui.backgroundImg = false ∧
    (seqFinally isVR s).ui.infoButtons = true :=
  ⟨rfl, rfl, rfl, rfl⟩

lemma runNextScene_shape (oracle : ModelLoader.LoadOracle) (isVR : Bool)
    (s : SeqState) :
    ∃ s2, runNextScene oracle isVR s = (seqFinally isVR s2, (runNextScene oracle isVR s).2) ∧
      s2.currentScene = s.currentScene + 1 := by
  unfold runNextScene seqPrepare
  dsimp only
  repeat' split
  all_goals refine ⟨_, rfl, ?_⟩
  all_goals simp_all [loadScene_currentScene]

lemma runNextScene_currentScene (oracle : ModelLoader.LoadOracle)
    (isVR : Bool) (s : SeqState) :
    ((runNextScene oracle isVR s).1).currentScene = s.currentScene + 1 := by
  obtain ⟨s2, h, hc⟩ := runNextScene_shape oracle isVR s
  rw [show (runNextScene oracle isVR s).1 = seqFinally isVR s2 by rw [h]]
  rw [(seqFinally_fields isVR s2).1, hc]

end SequencerClaims
section ClaimC2C3C4

open SequenceManager

/-- Claim C2: the scene index starts at -1, every `runNextScene` advance
increments it by exactly one, and when the incremented index is 6 (one
past the 0..5 catalog) the advance triggers a full reload instead of
loading a seventh content step — in particular, after the six advances
that reach step 5, a seventh advance restarts rather than doing anything
undefined. -/
theorem C2_scene_index_lifecycle :
    SequenceManager.initState.currentScene = -1 ∧
    (∀ oracle isVR s,
      ((SequenceManager.runNextScene oracle isVR s).1).currentScene =
        s.currentScene + 1) ∧
    (∀ oracle isVR s, s.currentScene = 5 →
      ((SequenceManager.runNextScene oracle isVR s).1).reloaded = true ∧
      ((SequenceManager.runNextScene oracle isVR s).1).models = s.models ∧
      (SequenceManager.runNextScene oracle isVR s).2 = none) ∧
    (SequenceManager.advanceOk^[6] SequenceManager.initState).currentScene
      = 5 ∧
    (SequenceManager.advanceOk^[6] SequenceManager.initState).reloaded
      = false ∧
    (SequenceManager.advanceOk^[7] SequenceManager.initState).reloaded
      = true := by
  refine ⟨rfl, runNextScene_currentScene, ?_, by decide, by decide, by decide⟩
  intro oracle isVR s h
  have h6 : appScenes (s.currentScene + 1) = none := by
    rw [h]; decide
  unfold runNextScene
  dsimp only
  rw [show (seqPrepare s).currentScene = s.currentScene + 1 from rfl, h6]
  simp [h, seqFinally, seqPrepare]

/-- Witness for C2 at a concrete state on step 5. -/
theorem C2_scene_index_lifecycle_witness :
    ((SequenceManager.advanceOk^[6] SequenceManager.initState).currentScene
      = 5) ∧
    ((SequenceManager.runNextScene (fun _ => true) false
        (SequenceManager.advanceOk^[6] SequenceManager.initState)).1).reloaded
      = true :=
  ⟨by decide,
    (C2_scene_index_lifecycle.2.2.1 (fun _ => true) false
      (SequenceManager.advanceOk^[6] SequenceManager.initState)
      (by decide)).1⟩

end ClaimC2C3C4
section ClaimC3C4C10

open SequenceManager

/-- Claim C3: for every N in [0,5], N+1 advances from the initial state
with all asset loads succeeding land on step N with exactly that step's
declared model set loaded (compared as the list of catalog indices of
the loaded models against `APP_CONFIG.scenes[N].models`) and no other
models; moreover step 1 keeps step 0's loaded models without reloading
(the model-loader state is untouched by the second advance). -/
theorem C3_declared_model_sets :
    (∀ N : ℕ, N ≤ 5 →
      (SequenceManager.advanceOk^[N+1]
          SequenceManager.initState).currentScene = (N : ℤ) ∧
      ((SequenceManager.advanceOk^[N+1]
          SequenceManager.initState).models.loadedModels.map
        (fun l => l.modelIdx)) =
        ((appScenes (N : ℤ)).map (fun c => c.models)).getD []) ∧
    (SequenceManager.advanceOk^[2] SequenceManager.initState).models =
      (SequenceManager.advanceOk^[1] SequenceManager.initState).models := by
  constructor
  · intro N hN
    interval_cases N <;> exact ⟨by decide, by decide⟩
  · decide

/-- Witness for C3 at N = 3. -/
theorem C3_declared_model_sets_witness :
    (SequenceManager.advanceOk^[4]
        SequenceManager.initState).currentScene = (3 : ℤ) ∧
    ((SequenceManager.advanceOk^[4]
        SequenceManager.initState).models.loadedModels.map
      (fun l => l.modelIdx)) =
      ((appScenes (3 : ℤ)).map (fun c => c.models)).getD [] :=
  C3_declared_model_sets.1 3 (by decide)

/-- Claim C4: whenever a step's load routine fails, `runNextScene` still
performs the cleanup — the loading indicator and background image are
hidden and the info controls shown — the step index is left at the value
it was incremented to, and the error of the load routine is re-raised to
the caller unchanged (nothing rolls the index back or retries). -/
theorem C4_failure_cleanup_and_reraise :
    ∀ oracle isVR s e,
      (SequenceManager.runNextScene oracle isVR s).2 = some e →
      ((SequenceManager.runNextScene oracle isVR s).1).ui.sceneLoading
        = false ∧
      ((SequenceManager.runNextScene oracle isVR s).1).ui.backgroundImg
        = false ∧
      ((SequenceManager.runNextScene oracle isVR s).1).ui.infoButtons
        = true ∧
      ((SequenceManager.runNextScene oracle isVR s).1).currentScene
        = s.currentScene + 1 ∧
      (∀ cfg, appScenes (s.currentScene + 1) = some cfg →
        (SequenceManager.runNextScene oracle isVR s).2 =
          (SequenceManager.loadScene oracle cfg
            (SequenceManager.seqPrepare s)).2) := by
  intro oracle isVR s e _h
  obtain ⟨s2, hs, _hc⟩ := runNextScene_shape oracle isVR s
  have h1 : (runNextScene oracle isVR s).1 = seqFinally isVR s2 := by rw [hs]
  refine ⟨?_, ?_, ?_, runNextScene_currentScene oracle isVR s, ?_⟩
  · rw [h1]; exact (seqFinally_fields isVR s2).2.1
  · rw [h1]; exact (seqFinally_fields isVR s2).2.2.1
  · rw [h1]; exact (seqFinally_fields isVR s2).2.2.2
  · intro cfg hcfg
    have hc2 : appScenes ((seqPrepare s).currentScene) = some cfg := hcfg
    unfold runNextScene
    dsimp only
    rw [hc2]

/-- Witness for C4: scene 0 with the city model rejecting. -/
theorem C4_failure_cleanup_and_reraise_witness :
    ((SequenceManager.runNextScene (fun i => i ≠ 0) false
        SequenceManager.initState).1).ui.sceneLoading = false ∧
    ((SequenceManager.runNextScene (fun i => i ≠ 0) false
        SequenceManager.initState).1).currentScene =
      SequenceManager.initState.currentScene + 1 :=
  let r := C4_failure_cleanup_and_reraise (fun i => i ≠ 0) false
    SequenceManager.initState 0 (by decide)
  ⟨r.1, r.2.2.2.1⟩

/-- Claim C10: at most one audio track is active at any time —
`playAudio` either leaves the state unchanged (absent buffer) or empties
the active-sound list and starts exactly the one requested sound, so
after any sequence of `AudioManager` calls from the constructor state
the active-sound list holds at most one entry. -/
theorem C10_at_most_one_active_sound :
    (∀ i l v s, (AudioManager.playAudio i l v s).activeSounds = [(i, l, v)] ∨
      (AudioManager.playAudio i l v s).activeSounds = s.activeSounds) ∧
    (∀ ops s, s.activeSounds.length ≤ 1 →
      ((AudioManager.runOps ops s).activeSounds).length ≤ 1) ∧
    (∀ ops, ((AudioManager.runOps ops
      AudioManager.initAM).activeSounds).length ≤ 1) := by
  have hplay : ∀ i l v s,
      (AudioManager.playAudio i l v s).activeSounds = [(i, l, v)] ∨
      (AudioManager.playAudio i l v s).activeSounds = s.activeSounds := by
    intro i l v s
    unfold AudioManager.playAudio AudioManager.stopAll
    rcases h : s.soundBuffers.get? i with _ | b
    · exact Or.inr rfl
    · rcases b with _ | u
      · exact Or.inr rfl
      · exact Or.inl rfl
  have hrun : ∀ ops s, s.activeSounds.length ≤ 1 →
      ((AudioManager.runOps ops s).activeSounds).length ≤ 1 := by
    intro ops
    induction ops with
    | nil => intro s h; exact h
    | cons op rest ih =>
      intro s h
      cases op with
      | play i l v =>
        refine ih _ ?_
        rcases hplay i l v s with h1 | h1 <;> rw [h1]
        · simp
        · exact h
      | stop => exact ih _ (by simp [AudioManager.stopAll])
      | fade => exact ih _ (by simp [AudioManager.fadeOut])
  exact ⟨hplay, hrun, fun ops => hrun ops _ (by simp [AudioManager.initAM])⟩

/-- Witness for C10 on a concrete call sequence. -/
theorem C10_at_most_one_active_sound_witness :
    (AudioManager.runOps
      [AudioManager.AudioOp.play 2 true (1/2), AudioManager.AudioOp.stop,
       AudioManager.AudioOp.play 0 false 1]
      ⟨[some (), some (), some ()], []⟩).activeSounds.length ≤ 1 :=
  C10_at_most_one_active_sound.2.1 _ _ (by decide)

end ClaimC3C4C10
section PhysicsLemmas

open PhysicsManager

/-- Grounding-probe condition of step 1 of `updatePlayerDesktop`: the
downward ray from the head position hits within `playerHeight + 0.1`. -/
def PhysicsManager.groundProbeHit (field : List Plane) (s : DesktopState) :
    Bool :=
  match nearestHit field ⟨s.px, s.py, s.pz⟩ ⟨0, -1, 0⟩ with
  | some t => decide (t < appPhysics.playerHeight + 1/10)
  | none => false

lemma desktopHorizontal_keys (rt delta : ℚ) (rightDir fwdDir : ℚ × ℚ)
    (s : DesktopState) :
    (desktopHorizontal rt delta rightDir fwdDir s).keys = s.keys := rfl

lemma desktopHorizontal_vy (rt delta : ℚ) (rightDir fwdDir : ℚ × ℚ)
    (s : DesktopState) :
    (desktopHorizontal rt delta rightDir fwdDir s).vy = s.vy := rfl

lemma desktopFinalGround_keys (field : List Plane) (s : DesktopState) :
    (desktopFinalGround field s).keys = s.keys := by
  unfold desktopFinalGround
  dsimp only
  repeat' split
  all_goals rfl

lemma desktopFinalGround_vy_nonneg (field : List Plane) (s : DesktopState)
    (h : 0 ≤ s.vy) : (desktopFinalGround field s).vy = s.vy := by
  unfold desktopFinalGround
  dsimp only
  repeat' split
  all_goals first
    | rfl
    | linarith

lemma desktopVertical_jump_false (delta : ℚ) (field : List Plane)
    (s : DesktopState) (h : (desktopVertical delta field s).keys.jump = true) :
    s.keys.jump = true := by
  unfold desktopVertical at h
  dsimp only at h
  rcases hn : nearestHit field ⟨s.px, s.py, s.pz⟩ ⟨0, -1, 0⟩ with _ | t
  · rw [hn] at h
    exact h
  · rw [hn] at h
    dsimp only at h
    by_cases ht : t < appPhysics.playerHeight + 1/10
    · rw [if_pos ht] at h
      by_cases hj : s.keys.jump = true
      · exact hj
      · simp [hj] at h
    · rw [if_neg ht] at h
      exact h

lemma desktopVertical_jump_impulse (delta : ℚ) (field : List Plane)
    (s : DesktopState) (hg : PhysicsManager.groundProbeHit field s = true)
    (hj : s.keys.jump = true) :
    (desktopVertical delta field s).vy = appPhysics.jumpVelocity ∧
    (desktopVertical delta field s).keys.jump = false := by
  unfold PhysicsManager.groundProbeHit at hg
  unfold desktopVertical
  dsimp only
  rcases hn : nearestHit field ⟨s.px, s.py, s.pz⟩ ⟨0, -1, 0⟩ with _ | t <;>
    rw [hn] at hg
  · exact absurd hg (by simp)
  · have ht : t < appPhysics.playerHeight + 1/10 := of_decide_eq_true hg
    dsimp only
    rw [if_pos ht]
    simp [hj]

end PhysicsLemmas

section ClaimC7

open PhysicsManager

/-- Claim C7: a jump request (Space key-down) is recorded into the
pending-jump bit only while the grounded flag is set — a Space press
while airborne leaves the state entirely unchanged, and neither key-up
nor a tick ever sets the bit, so an airborne request can never produce
an upward impulse in any later tick before the player is next grounded;
and when the impulse is applied (grounded probe hit with the bit set),
the tick sets the vertical velocity to the fixed `jumpVelocity` and
clears the bit within that same tick. -/
theorem C7_jump_gating :
    (∀ s : DesktopState, s.playerOnFloor = false →
      PhysicsManager.handleKeyDown KeyCode.space s = s) ∧
    (∀ (c : KeyCode) (s : DesktopState),
      (PhysicsManager.handleKeyDown c s).keys.jump = true →
      s.keys.jump = true ∨ (c = KeyCode.space ∧ s.playerOnFloor = true)) ∧
    (∀ (c : KeyCode) (s : DesktopState),
      (PhysicsManager.handleKeyUp c s).keys.jump = true →
      s.keys.jump = true) ∧
    (∀ rt delta isLocked rightDir fwdDir field (s : DesktopState),
      (PhysicsManager.updatePlayerDesktop rt delta isLocked rightDir fwdDir
        field s).keys.jump = true → s.keys.jump = true) ∧
    (∀ rt delta rightDir fwdDir field (s : DesktopState),
      PhysicsManager.groundProbeHit field s = true → s.keys.jump = true →
      (PhysicsManager.updatePlayerDesktop rt delta true rightDir fwdDir
        field s).vy = appPhysics.jumpVelocity ∧
      (PhysicsManager.updatePlayerDesktop rt delta true rightDir fwdDir
        field s).keys.jump = false) := by
  refine ⟨?_, ?_, ?_, ?_, ?_⟩
  · intro s h
    unfold PhysicsManager.handleKeyDown
    rw [h]
    rfl
  · intro c s h
    cases c <;> simp only [PhysicsManager.handleKeyDown] at h
    case space =>
      by_cases hf : s.playerOnFloor = true
      · exact Or.inr ⟨rfl, hf⟩
      · simp only [Bool.not_eq_true] at hf
        rw [hf] at h
        simp at h
        exact Or.inl h
    all_goals exact Or.inl h
  · intro c s h
    cases c <;> simp only [PhysicsManager.handleKeyUp] at h <;>
      first
        | exact h
        | (simp at h)
  · intro rt delta isLocked rightDir fwdDir field s h
    unfold updatePlayerDesktop at h
    by_cases hl : isLocked = true
    · rw [if_pos hl] at h
      dsimp only at h
      rw [desktopFinalGround_keys] at h
      unfold desktopPreResolve at h
      rw [desktopHorizontal_keys] at h
      exact desktopVertical_jump_false delta field s h
    · simp only [Bool.not_eq_true] at hl
      rw [hl] at h
      simp at h
      exact h
  · intro rt delta rightDir fwdDir field s hg hj
    obtain ⟨hv, hk⟩ := desktopVertical_jump_impulse delta field s hg hj
    have hvy6 : (0 : ℚ) ≤ (desktopVertical delta field s).vy := by
      rw [hv]; norm_num [appPhysics]
    unfold updatePlayerDesktop
    rw [if_pos rfl]
    dsimp only
    unfold desktopPreResolve
    constructor
    · rw [desktopFinalGround_vy_nonneg _ _ (by rw [desktopHorizontal_vy]; exact hvy6),
        desktopHorizontal_vy, hv]
    · rw [desktopFinalGround_keys, desktopHorizontal_keys, hk]

/-- Witness for C7: a flat floor at height 0 with the player standing at
head height 1.6 and a pending jump. -/
theorem C7_jump_gating_witness :
    (PhysicsManager.handleKeyDown KeyCode.space
      { px := 0, py := 10, pz := 0, vx := 0, vy := 0, vz := 0
        keys := KeyState.none, playerOnFloor := false
        currentMoveSpeed := 20 } =
      { px := 0, py := 10, pz := 0, vx := 0, vy := 0, vz := 0
        keys := KeyState.none, playerOnFloor := false
        currentMoveSpeed := 20 }) ∧
    ((PhysicsManager.updatePlayerDesktop 0 (1/100) true (1, 0) (0, 1)
        [⟨Ax.Y, 0⟩]
        { px := 0, py := 8/5, pz := 0, vx := 0, vy := 0, vz := 0
          keys := { KeyState.none with jump := true }, playerOnFloor := true
          currentMoveSpeed := 20 }).vy = appPhysics.jumpVelocity ∧
     (PhysicsManager.updatePlayerDesktop 0 (1/100) true (1, 0) (0, 1)
        [⟨Ax.Y, 0⟩]
        { px := 0, py := 8/5, pz := 0, vx := 0, vy := 0, vz := 0
          keys := { KeyState.none with jump := true }, playerOnFloor := true
          currentMoveSpeed := 20 }).keys.jump = false) :=
  ⟨C7_jump_gating.1 _ rfl,
   C7_jump_gating.2.2.2.2 0 (1/100) (1, 0) (0, 1) [⟨Ax.Y, 0⟩] _
     (by norm_num [PhysicsManager.groundProbeHit, nearestHit, planeHit,
       Plane.coordOf, List.filterMap_cons, List.filterMap_nil,
       appPhysics]) rfl⟩

end ClaimC7
section ClaimC9

open PhysicsManager

lemma vrVertical_rotY (delta : ℚ) (field : List Plane) (s : VRState) :
    (vrVertical delta field s).rotY = s.rotY := by
  unfold vrVertical
  repeat' split
  all_goals rfl

lemma vrFinalFloor_rotY (field : List Plane) (s : VRState) :
    (vrFinalFloor field s).rotY = s.rotY := by
  unfold vrFinalFloor
  repeat' split
  all_goals rfl

lemma vrStages_rotY (delta : ℚ) (camFwd camRight : ℚ × ℚ)
    (moveG : Option Gamepad) (field : List Plane) (s : VRState) :
    (vrResolve field (vrApplyPos delta
      (vrMove delta camFwd camRight moveG s))).rotY = s.rotY := rfl

/-- Claim C9: in the VR tick the rig's yaw changes in a frame iff the
turn stick's horizontal axis magnitude exceeds the 0.1 deadzone, and
when it does the rig is rotated by exactly `-axis * Δt * turnSpeed`,
with no additional smoothing. -/
theorem C9_vr_turn_deadzone :
    ∀ delta camFwd camRight field moveG (g : Gamepad) (s : VRState),
      0 < delta →
      (PhysicsManager.updatePlayerVR delta camFwd camRight field moveG
          (some g) s).rotY =
        s.rotY + (if |g.ax2| > 1/10 then -g.ax2 * delta * appVR.turnSpeed
          else 0) ∧
      ((PhysicsManager.updatePlayerVR delta camFwd camRight field moveG
          (some g) s).rotY ≠ s.rotY ↔ |g.ax2| > 1/10) := by
  intro delta camFwd camRight field moveG g s hd
  have hrot : (PhysicsManager.updatePlayerVR delta camFwd camRight field
      moveG (some g) s).rotY =
      s.rotY + (if |g.ax2| > 1/10 then -g.ax2 * delta * appVR.turnSpeed
        else 0) := by
    unfold updatePlayerVR
    rw [vrFinalFloor_rotY, vrStages_rotY]
    unfold vrTurn
    dsimp only
    split
    all_goals simp [vrFriction, vrVertical_rotY]
  refine ⟨hrot, ?_⟩
  rw [hrot]
  by_cases hz : |g.ax2| > 1/10
  · rw [if_pos hz]
    have hax : g.ax2 ≠ 0 := by
      intro h0
      rw [h0] at hz
      norm_num at hz
    have hts : appVR.turnSpeed = 2 := rfl
    constructor
    · intro _
      exact hz
    · intro _
      intro heq
      have : -g.ax2 * delta * appVR.turnSpeed = 0 := by linarith
      rcases mul_eq_zero.1 this with h1 | h2
      · rcases mul_eq_zero.1 h1 with h3 | h4
        · exact hax (neg_eq_zero.1 h3)
        · exact absurd h4 (ne_of_gt hd)
      · rw [hts] at h2
        norm_num at h2
  · rw [if_neg hz]
    simpa using hz

/-- Witness for C9 at a concrete axis value past the deadzone. -/
theorem C9_vr_turn_deadzone_witness :
    (PhysicsManager.updatePlayerVR (1/10) (0, 1) (1, 0) [] none
        (some ⟨1/2, 0, 0⟩)
        { rx := 0, ry := 0, rz := 0, rotY := 0, vx := 0, vy := 0, vz := 0 }).rotY =
      0 + (if |(1/2 : ℚ)| > 1/10 then -(1/2) * (1/10) * appVR.turnSpeed
        else 0) :=
  (C9_vr_turn_deadzone (1/10) (0, 1) (1, 0) [] none ⟨1/2, 0, 0⟩
    { rx := 0, ry := 0, rz := 0, rotY := 0, vx := 0, vy := 0, vz := 0 }
    (by norm_num)).1

end ClaimC9
section ClaimC5

open PhysicsManager

lemma nearestHit_nil (o d : V3) : nearestHit [] o d = none := rfl

lemma resolveWalls_nil (c : V3) (w : WallState) :
    resolveWalls [] c w = w := rfl

lemma desktopVertical_nil_vx (delta : ℚ) (s : DesktopState) :
    (desktopVertical delta [] s).vx = s.vx := rfl

lemma desktopVertical_nil_vz (delta : ℚ) (s : DesktopState) :
    (desktopVertical delta [] s).vz = s.vz := rfl

lemma desktopVertical_nil_keys (delta : ℚ) (s : DesktopState) :
    (desktopVertical delta [] s).keys = s.keys := rfl

lemma desktopVertical_nil_speed (delta : ℚ) (s : DesktopState) :
    (desktopVertical delta [] s).currentMoveSpeed = s.currentMoveSpeed := rfl

lemma desktopFinalGround_nil (s : DesktopState) :
    desktopFinalGround [] s = { s with playerOnFloor := false } := rfl

lemma desktopHorizontal_noInput_vx (rt delta : ℚ) (rightDir fwdDir : ℚ × ℚ)
    (s : DesktopState) (hl : s.keys.left = false) (hr : s.keys.right = false) :
    (desktopHorizontal rt delta rightDir fwdDir s).vx =
      s.vx - s.vx * appPhysics.friction * delta := by
  unfold desktopHorizontal
  dsimp only
  rw [hl, hr]
  simp

lemma desktopHorizontal_noInput_vz (rt delta : ℚ) (rightDir fwdDir : ℚ × ℚ)
    (s : DesktopState) (hf : s.keys.forward = false)
    (hb : s.keys.backward = false) :
    (desktopHorizontal rt delta rightDir fwdDir s).vz =
      s.vz - s.vz * appPhysics.friction * delta := by
  unfold desktopHorizontal
  dsimp only
  rw [hf, hb]
  simp

/-- Zero-directional-input predicate on held keys. -/
def PhysicsManager.noDirInput (k : KeyState) : Prop :=
  k.forward = false ∧ k.backward = false ∧ k.left = false ∧ k.right = false

instance (k : KeyState) : Decidable (PhysicsManager.noDirInput k) := by
  unfold PhysicsManager.noDirInput
  infer_instance

lemma updatePlayerDesktop_nil_noInput (rt delta : ℚ)
    (rightDir fwdDir : ℚ × ℚ) (s : DesktopState)
    (h : PhysicsManager.noDirInput s.keys) :
    (updatePlayerDesktop rt delta true rightDir fwdDir [] s).vx =
      s.vx - s.vx * appPhysics.friction * delta ∧
    (updatePlayerDesktop rt delta true rightDir fwdDir [] s).vz =
      s.vz - s.vz * appPhysics.friction * delta ∧
    (updatePlayerDesktop rt delta true rightDir fwdDir [] s).keys =
      s.keys := by
  obtain ⟨hf, hb, hl, hr⟩ := h
  unfold updatePlayerDesktop desktopPreResolve
  rw [if_pos rfl]
  dsimp only
  rw [resolveWalls_nil]
  refine ⟨?_, ?_, ?_⟩
  · show (desktopHorizontal rt delta rightDir fwdDir
      (desktopVertical delta [] s)).vx = _
    rw [desktopHorizontal_noInput_vx _ _ _ _ _
        (by rw [desktopVertical_nil_keys]; exact hl)
        (by rw [desktopVertical_nil_keys]; exact hr),
      desktopVertical_nil_vx]
  · show (desktopHorizontal rt delta rightDir fwdDir
      (desktopVertical delta [] s)).vz = _
    rw [desktopHorizontal_noInput_vz _ _ _ _ _
        (by rw [desktopVertical_nil_keys]; exact hf)
        (by rw [desktopVertical_nil_keys]; exact hb),
      desktopVertical_nil_vz]
  · show (desktopHorizontal rt delta rightDir fwdDir
      (desktopVertical delta [] s)).keys = _
    rw [desktopHorizontal_keys, desktopVertical_nil_keys]

end ClaimC5
section ClaimC5b

open PhysicsManager

lemma updatePlayerDesktop_nil_iterate (rt delta : ℚ)
    (rightDir fwdDir : ℚ × ℚ) (s : DesktopState)
    (h : PhysicsManager.noDirInput s.keys) (n : ℕ) :
    ((fun st => updatePlayerDesktop rt delta true rightDir fwdDir [] st)^[n]
        s).vx = (1 - appPhysics.friction * delta) ^ n * s.vx ∧
    ((fun st => updatePlayerDesktop rt delta true rightDir fwdDir [] st)^[n]
        s).vz = (1 - appPhysics.friction * delta) ^ n * s.vz ∧
    ((fun st => updatePlayerDesktop rt delta true rightDir fwdDir [] st)^[n]
        s).keys = s.keys := by
  induction n with
  | zero => simp
  | succ n ih =>
    obtain ⟨ivx, ivz, ikeys⟩ := ih
    rw [Function.iterate_succ_apply']
    obtain ⟨tvx, tvz, tkeys⟩ := updatePlayerDesktop_nil_noInput rt delta
      rightDir fwdDir _ (by rw [ikeys]; exact h)
    refine ⟨?_, ?_, ?_⟩
    · rw [tvx, ivx]; ring
    · rw [tvz, ivz]; ring
    · rw [tkeys, ikeys]

/-- Claim C5, corrected.  With zero directional input, one desktop tick
on an empty collision field updates each horizontal velocity component
only by the damping step `v := v - v * friction * delta`.  The original
claim's "for any fixed Δt > 0" fails (see the counterexample at
Δt = 0.2); under the amended bound `Δt < 2/friction = 0.2` the squared
horizontal speed strictly decreases whenever it is nonzero and falls
below every positive ε within a bounded number of ticks. -/
theorem C5_friction_decay_amended :
    ∀ rt delta (rightDir fwdDir : ℚ × ℚ) (s : DesktopState),
      PhysicsManager.noDirInput s.keys →
      ((updatePlayerDesktop rt delta true rightDir fwdDir [] s).vx =
          s.vx - s.vx * appPhysics.friction * delta ∧
        (updatePlayerDesktop rt delta true rightDir fwdDir [] s).vz =
          s.vz - s.vz * appPhysics.friction * delta) ∧
      (0 < delta → delta < 1/5 → ¬(s.vx = 0 ∧ s.vz = 0) →
        (updatePlayerDesktop rt delta true rightDir fwdDir [] s).vx ^ 2 +
          (updatePlayerDesktop rt delta true rightDir fwdDir [] s).vz ^ 2 <
          s.vx ^ 2 + s.vz ^ 2) ∧
      (0 < delta → delta < 1/5 → ∀ ε : ℚ, 0 < ε → ∃ N : ℕ, ∀ n ≥ N,
        ((fun st => updatePlayerDesktop rt delta true rightDir fwdDir []
            st)^[n] s).vx ^ 2 +
        ((fun st => updatePlayerDesktop rt delta true rightDir fwdDir []
            st)^[n] s).vz ^ 2 < ε) := by
  intro rt delta rightDir fwdDir s h
  obtain ⟨tvx, tvz, _⟩ := updatePlayerDesktop_nil_noInput rt delta
    rightDir fwdDir s h
  set c : ℚ := 1 - appPhysics.friction * delta with hc
  have hfr : appPhysics.friction = 10 := rfl
  have habs : 0 < delta → delta < 1/5 → c ^ 2 < 1 := by
    intro h1 h2
    have : |c| < 1 := by
      rw [abs_lt, hc, hfr]
      constructor <;> linarith
    calc c ^ 2 = |c| ^ 2 := (sq_abs c).symm
    _ < 1 ^ 2 := by
        apply pow_lt_pow_left₀ this (abs_nonneg c)
        norm_num
    _ = 1 := one_pow 2
  have hmagtick :
      (updatePlayerDesktop rt delta true rightDir fwdDir [] s).vx ^ 2 +
        (updatePlayerDesktop rt delta true rightDir fwdDir [] s).vz ^ 2 =
        c ^ 2 * (s.vx ^ 2 + s.vz ^ 2) := by
    rw [tvx, tvz, hc]
    ring
  refine ⟨⟨tvx, tvz⟩, ?_, ?_⟩
  · intro h1 h2 hnz
    have hM : 0 < s.vx ^ 2 + s.vz ^ 2 := by
      rcases not_and_or.1 hnz with hx | hz
      · have := pow_two_pos_of_ne_zero hx
        have := sq_nonneg s.vz
        linarith
      · have := pow_two_pos_of_ne_zero hz
        have := sq_nonneg s.vx
        linarith
    rw [hmagtick]
    exact mul_lt_of_lt_one_left hM (habs h1 h2)
  · intro h1 h2 ε hε
    set M : ℚ := s.vx ^ 2 + s.vz ^ 2 with hM
    have hM0 : 0 ≤ M := by positivity
    have hc2 : c ^ 2 < 1 := habs h1 h2
    have hc20 : 0 ≤ c ^ 2 := sq_nonneg c
    obtain ⟨N, hN⟩ := exists_pow_lt_of_lt_one
      (div_pos hε (by linarith : (0:ℚ) < M + 1)) hc2
    refine ⟨N, fun n hn => ?_⟩
    obtain ⟨ivx, ivz, _⟩ := updatePlayerDesktop_nil_iterate rt delta
      rightDir fwdDir s h n
    have hmag : ((fun st => updatePlayerDesktop rt delta true rightDir
          fwdDir [] st)^[n] s).vx ^ 2 +
        ((fun st => updatePlayerDesktop rt delta true rightDir fwdDir []
          st)^[n] s).vz ^ 2 = (c ^ 2) ^ n * M := by
      have key : (c ^ n) ^ 2 = (c ^ 2) ^ n := by
        rw [← pow_mul, ← pow_mul, Nat.mul_comm]
      rw [ivx, ivz, hM, mul_pow, mul_pow, key]
      ring
    rw [hmag]
    have hstep : (c ^ 2) ^ n ≤ (c ^ 2) ^ N :=
      pow_le_pow_of_le_one hc20 (le_of_lt hc2) hn
    have hle : (c ^ 2) ^ n * M ≤ (c ^ 2) ^ N * M :=
      mul_le_mul_of_nonneg_right hstep hM0
    have hlt : (c ^ 2) ^ N * M < (ε / (M + 1)) * (M + 1) := by
      apply mul_lt_mul' (le_of_lt (hN)) (by linarith) hM0
      · positivity
    calc (c ^ 2) ^ n * M ≤ (c ^ 2) ^ N * M := hle
    _ < (ε / (M + 1)) * (M + 1) := hlt
    _ = ε := div_mul_cancel₀ ε (by linarith)

/-- Counterexample to C5 as stated: at Δt = 0.2 > 0 (with the
configured friction 10) a tick with zero input maps horizontal velocity
(1, 0) to (-1, 0): the damping factor is 1 − 10·0.2 = −1, so the
horizontal speed does not strictly decrease for every fixed Δt > 0 and
never approaches zero at this Δt. -/
theorem C5_friction_decay_counterexample :
    (0 : ℚ) < 1/5 ∧
    (updatePlayerDesktop 0 (1/5) true (1, 0) (0, 1) []
      { px := 0, py := 10, pz := 0, vx := 1, vy := 0, vz := 0
        keys := KeyState.none, playerOnFloor := false
        currentMoveSpeed := 20 }).vx = -1 ∧
    (updatePlayerDesktop 0 (1/5) true (1, 0) (0, 1) []
      { px := 0, py := 10, pz := 0, vx := 1, vy := 0, vz := 0
        keys := KeyState.none, playerOnFloor := false
        currentMoveSpeed := 20 }).vz = 0 ∧
    ¬((-1 : ℚ) ^ 2 + (0 : ℚ) ^ 2 < 1 ^ 2 + 0 ^ 2) := by
  refine ⟨by norm_num, ?_, ?_, by norm_num⟩ <;>
    norm_num [updatePlayerDesktop, desktopPreResolve, desktopVertical,
      desktopHorizontal, resolveWalls, resolveDir, desktopFinalGround,
      nearestHit, normDir, dirX, dirZ, KeyState.none, appPhysics]

/-- Witness for the amended C5 at a concrete no-input state. -/
theorem C5_friction_decay_amended_witness :
    (updatePlayerDesktop 0 (1/100) true (1, 0) (0, 1)
      [] { px := 0, py := 10, pz := 0, vx := 1, vy := 0, vz := 0
           keys := KeyState.none, playerOnFloor := false
           currentMoveSpeed := 20 }).vx =
      1 - 1 * appPhysics.friction * (1/100) :=
  (C5_friction_decay_amended 0 (1/100) (1, 0) (0, 1)
    { px := 0, py := 10, pz := 0, vx := 1, vy := 0, vz := 0
      keys := KeyState.none, playerOnFloor := false
      currentMoveSpeed := 20 }
    (by refine ⟨rfl, rfl, rfl, rfl⟩)).1.1

end ClaimC5b
section ClaimC6

open PhysicsManager

lemma desktopHorizontal_input_vz (rt delta : ℚ) (rightDir fwdDir : ℚ × ℚ)
    (s : DesktopState) (h : s.keys.forward = true ∨ s.keys.backward = true) :
    (desktopHorizontal rt delta rightDir fwdDir s).vz =
      (s.vz - s.vz * appPhysics.friction * delta) -
        (normDir rt (dirX s.keys) (dirZ s.keys)).2 *
          s.currentMoveSpeed * delta := by
  unfold desktopHorizontal
  dsimp only
  have : (s.keys.forward || s.keys.backward) = true := by
    rcases h with h | h <;> simp [h]
  rw [this]
  simp

lemma desktopHorizontal_input_vx (rt delta : ℚ) (rightDir fwdDir : ℚ × ℚ)
    (s : DesktopState) (h : s.keys.left = true ∨ s.keys.right = true) :
    (desktopHorizontal rt delta rightDir fwdDir s).vx =
      (s.vx - s.vx * appPhysics.friction * delta) -
        (normDir rt (dirX s.keys) (dirZ s.keys)).1 *
          s.currentMoveSpeed * delta := by
  unfold desktopHorizontal
  dsimp only
  have : (s.keys.left || s.keys.right) = true := by
    rcases h with h | h <;> simp [h]
  rw [this]
  simp

lemma desktopHorizontal_speed (rt delta : ℚ) (rightDir fwdDir : ℚ × ℚ)
    (s : DesktopState) :
    (desktopHorizontal rt delta rightDir fwdDir s).currentMoveSpeed =
      s.currentMoveSpeed := rfl

lemma desktopVertical_speed (delta : ℚ) (field : List Plane)
    (s : DesktopState) :
    (desktopVertical delta field s).currentMoveSpeed =
      s.currentMoveSpeed := by
  unfold desktopVertical
  dsimp only
  repeat' split
  all_goals rfl

lemma desktopFinalGround_speed (field : List Plane) (s : DesktopState) :
    (desktopFinalGround field s).currentMoveSpeed =
      s.currentMoveSpeed := by
  unfold desktopFinalGround
  dsimp only
  repeat' split
  all_goals rfl

/-- Claim C6, corrected.  With at least one directional key held, the
desktop tick updates the corresponding horizontal velocity component by
SUBTRACTING `direction * currentSpeed * Δt` from the damped value (the
original claim says the quantity is added; the code compensates by
applying the movement through `moveRight(-vx*Δt)` / `moveForward(-vz*Δt)`,
so motion still follows the held direction).  `currentSpeed` is as the
claim states: the persisted `currentMoveSpeed` state, set to
`baseMoveSpeed * sprintMultiplier` on sprint key-down and back to
`baseMoveSpeed` on key-up, and never recomputed inside the tick. -/
theorem C6_input_integration_amended :
    (∀ rt delta (rightDir fwdDir : ℚ × ℚ) (s : DesktopState),
      s.keys.forward = true ∨ s.keys.backward = true →
      (updatePlayerDesktop rt delta true rightDir fwdDir [] s).vz =
        (s.vz - s.vz * appPhysics.friction * delta) -
          (normDir rt (dirX s.keys) (dirZ s.keys)).2 *
            s.currentMoveSpeed * delta) ∧
    (∀ rt delta (rightDir fwdDir : ℚ × ℚ) (s : DesktopState),
      s.keys.left = true ∨ s.keys.right = true →
      (updatePlayerDesktop rt delta true rightDir fwdDir [] s).vx =
        (s.vx - s.vx * appPhysics.friction * delta) -
          (normDir rt (dirX s.keys) (dirZ s.keys)).1 *
            s.currentMoveSpeed * delta) ∧
    (∀ s : DesktopState,
      (PhysicsManager.handleKeyDown KeyCode.shiftLeft s).currentMoveSpeed =
        appPhysics.baseMoveSpeed * appPhysics.sprintMultiplier ∧
      (PhysicsManager.handleKeyDown KeyCode.shiftLeft s).keys.sprint
        = true ∧
      (PhysicsManager.handleKeyUp KeyCode.shiftLeft s).currentMoveSpeed =
        appPhysics.baseMoveSpeed ∧
      (PhysicsManager.handleKeyUp KeyCode.shiftLeft s).keys.sprint
        = false) ∧
    (∀ rt delta isLocked (rightDir fwdDir : ℚ × ℚ) field
        (s : DesktopState),
      (updatePlayerDesktop rt delta isLocked rightDir fwdDir field
        s).currentMoveSpeed = s.currentMoveSpeed) := by
  refine ⟨?_, ?_, ?_, ?_⟩
  · intro rt delta rightDir fwdDir s h
    unfold updatePlayerDesktop desktopPreResolve
    rw [if_pos rfl]
    dsimp only
    rw [resolveWalls_nil]
    show (desktopHorizontal rt delta rightDir fwdDir
      (desktopVertical delta [] s)).vz = _
    rw [desktopHorizontal_input_vz _ _ _ _ _
        (by rw [desktopVertical_nil_keys]; exact h),
      desktopVertical_nil_vz, desktopVertical_nil_keys,
      desktopVertical_nil_speed]
  · intro rt delta rightDir fwdDir s h
    unfold updatePlayerDesktop desktopPreResolve
    rw [if_pos rfl]
    dsimp only
    rw [resolveWalls_nil]
    show (desktopHorizontal rt delta rightDir fwdDir
      (desktopVertical delta [] s)).vx = _
    rw [desktopHorizontal_input_vx _ _ _ _ _
        (by rw [desktopVertical_nil_keys]; exact h),
      desktopVertical_nil_vx, desktopVertical_nil_keys,
      desktopVertical_nil_speed]
  · intro s
    exact ⟨rfl, rfl, rfl, rfl⟩
  · intro rt delta isLocked rightDir fwdDir field s
    unfold updatePlayerDesktop desktopPreResolve
    by_cases hl : isLocked = true
    · rw [if_pos hl]
      dsimp only
      rw [desktopFinalGround_speed]
      show (desktopHorizontal rt delta rightDir fwdDir
        (desktopVertical delta field s)).currentMoveSpeed = _
      rw [desktopHorizontal_speed, desktopVertical_speed]
    · simp only [Bool.not_eq_true] at hl
      rw [hl, if_neg (by simp)]

/-- Counterexample to C6 as stated: holding only forward with zero
velocity, `currentSpeed = 20` and Δt = 1, the tick yields vz = -20; were
`direction * currentSpeed * Δt` ADDED to the damped component (0), vz
would be +20. -/
theorem C6_input_integration_counterexample :
    (updatePlayerDesktop 0 1 true (1, 0) (0, 1) []
      { px := 0, py := 10, pz := 0, vx := 0, vy := 0, vz := 0
        keys := { KeyState.none with forward := true }
        playerOnFloor := false, currentMoveSpeed := 20 }).vz = -20 ∧
    (updatePlayerDesktop 0 1 true (1, 0) (0, 1) []
      { px := 0, py := 10, pz := 0, vx := 0, vy := 0, vz := 0
        keys := { KeyState.none with forward := true }
        playerOnFloor := false, currentMoveSpeed := 20 }).vz ≠
      (0 - 0 * appPhysics.friction * 1) + 1 * 20 * 1 := by
  constructor <;>
    norm_num [updatePlayerDesktop, desktopPreResolve, desktopVertical,
      desktopHorizontal, resolveWalls, resolveDir, desktopFinalGround,
      nearestHit, normDir, dirX, dirZ, KeyState.none, appPhysics]

/-- Witness for the amended C6: forward held, sprint toggled. -/
theorem C6_input_integration_amended_witness :
    ((updatePlayerDesktop 0 1 true (1, 0) (0, 1) []
      { px := 0, py := 10, pz := 0, vx := 0, vy := 0, vz := 0
        keys := { KeyState.none with forward := true }
        playerOnFloor := false, currentMoveSpeed := 20 }).vz =
      (0 - 0 * appPhysics.friction * 1) -
        (PhysicsManager.normDir 0
          (PhysicsManager.dirX { KeyState.none with forward := true })
          (PhysicsManager.dirZ { KeyState.none with forward := true })).2 *
          20 * 1) ∧
    (PhysicsManager.handleKeyDown KeyCode.shiftLeft
      { px := 0, py := 10, pz := 0, vx := 0, vy := 0, vz := 0
        keys := KeyState.none, playerOnFloor := false
        currentMoveSpeed := 20 }).currentMoveSpeed =
      appPhysics.baseMoveSpeed * appPhysics.sprintMultiplier :=
  ⟨C6_input_integration_amended.1 0 1 (1, 0) (0, 1) _ (Or.inl rfl),
   (C6_input_integration_amended.2.2.1 _).1⟩

end ClaimC6
section ClaimC8

open SequenceManager

/-- Counterexample to C8 as stated: in step 2, whose variant list has
exactly two options, calling `handleVariantClick 2` (an out-of-range
index) is NOT a no-op: it flips the A/B visibility split to the
option-2 pair (model m3 goes from hidden to visible, m1 from visible to
hidden) and rewrites the toggle highlight. -/
theorem C8_out_of_range_counterexample :
    ((((appScenes 2).bind (fun c => c.buttons)).getD []).length = 2) ∧
    (SequenceManager.advanceOk^[3]
      SequenceManager.initState).currentScene = 2 ∧
    ModelLoader.getVisibility "m3"
      (SequenceManager.advanceOk^[3] SequenceManager.initState).models =
      some false ∧
    ModelLoader.getVisibility "m3"
      (SequenceManager.handleVariantClick 2
        (SequenceManager.advanceOk^[3]
          SequenceManager.initState)).models = some true ∧
    ModelLoader.getVisibility "m1"
      (SequenceManager.advanceOk^[3] SequenceManager.initState).models =
      some true ∧
    ModelLoader.getVisibility "m1"
      (SequenceManager.handleVariantClick 2
        (SequenceManager.advanceOk^[3]
          SequenceManager.initState)).models = some false := by
  decide

/-- Claim C8, corrected.  An out-of-range variant index raises no error,
and in step 4 (six camera positions) it leaves the camera, the models,
the content panels and the description unchanged; but it is not a
complete no-op: the toggle-button highlight is always rewritten (an
out-of-range index clears the current selection), and in every step
other than 1, 2 and 4 that highlight rewrite is the only effect (in
step 2 any index other than 0 switches the visibility split — see the
counterexample). -/
theorem C8_out_of_range_amended :
    (∀ (i : ℕ) (s : SeqState), s.currentScene = 4 → 6 ≤ i →
      (handleVariantClick i s).camera = s.camera ∧
      (handleVariantClick i s).models = s.models ∧
      (handleVariantClick i s).ui.leftPanel = s.ui.leftPanel ∧
      (handleVariantClick i s).ui.rightPanel = s.ui.rightPanel ∧
      (handleVariantClick i s).ui.description = s.ui.description ∧
      (handleVariantClick i s).ui.selected = none) ∧
    (∀ (i : ℕ) (s : SeqState), s.currentScene ≠ 1 → s.currentScene ≠ 2 →
      s.currentScene ≠ 4 →
      handleVariantClick i s =
        { s with ui := UIManager.selectToggleButton i s.ui }) := by
  constructor
  · intro i s h4 h6
    have hlen :
        ((appScenes 4).bind (fun c => c.cameraPositions)).map List.length =
          some 6 := by decide
    unfold handleVariantClick
    dsimp only
    rw [h4]
    norm_num
    unfold scene4Click
    rcases hcp : (appScenes 4).bind (fun c => c.cameraPositions) with _ | l
    · rw [hcp] at hlen
      simp at hlen
    · rw [hcp] at hlen
      have hl6 : l.length = 6 := by
        simpa using hlen
      dsimp only
      rw [if_neg (by rw [hl6]; exact not_lt.2 h6)]
      refine ⟨rfl, rfl, rfl, rfl, rfl, ?_⟩
      show (UIManager.selectToggleButton i s.ui).selected = none
      unfold UIManager.selectToggleButton
      dsimp only
      rw [if_neg (not_lt.2 h6)]
  · intro i s h1 h2 h4
    unfold handleVariantClick
    dsimp only
    rw [if_neg (by simpa using h1), if_neg (by simpa using h2),
      if_neg (by simpa using h4)]

/-- Witness for the amended C8: index 7 in step 4. -/
theorem C8_out_of_range_amended_witness :
    ((SequenceManager.advanceOk^[5]
      SequenceManager.initState).currentScene = 4) ∧
    (SequenceManager.handleVariantClick 7
      (SequenceManager.advanceOk^[5] SequenceManager.initState)).camera =
      (SequenceManager.advanceOk^[5] SequenceManager.initState).camera ∧
    (SequenceManager.handleVariantClick 7
      (SequenceManager.advanceOk^[5]
        SequenceManager.initState)).ui.selected = none :=
  ⟨by decide,
   (C8_out_of_range_amended.1 7 _ (by decide) (by norm_num)).1,
   (C8_out_of_range_amended.1 7 _ (by decide) (by norm_num)).2.2.2.2.2⟩

end ClaimC8
section ClaimC1

open PhysicsManager

lemma nearestHit_single (p : Plane) (o d : V3) :
    nearestHit [p] o d = planeHit o d p := by
  unfold nearestHit
  cases h : planeHit o d p <;> simp [h]

lemma planeHit_xwall_px (w : ℚ) (o : V3) :
    planeHit o ⟨1, 0, 0⟩ ⟨Ax.X, w⟩ =
      if 0 ≤ w - o.x then some (w - o.x) else none := by
  unfold planeHit Plane.coordOf
  dsimp only
  rw [if_neg (by norm_num : ¬((1 : ℚ) = 0)), div_one]

lemma planeHit_xwall_nx (w : ℚ) (o : V3) :
    planeHit o ⟨-1, 0, 0⟩ ⟨Ax.X, w⟩ =
      if 0 ≤ o.x - w then some (o.x - w) else none := by
  unfold planeHit Plane.coordOf
  dsimp only
  rw [if_neg (by norm_num : ¬((-1 : ℚ) = 0))]
  rw [show (w - o.x) / (-1 : ℚ) = o.x - w from by ring]

lemma planeHit_xwall_z (w : ℚ) (o : V3) (zc : ℚ) :
    planeHit o ⟨0, 0, zc⟩ ⟨Ax.X, w⟩ = none := by
  unfold planeHit Plane.coordOf
  dsimp only
  rw [if_pos rfl]

lemma planeHit_xwall_down (w : ℚ) (o : V3) :
    planeHit o ⟨0, -1, 0⟩ ⟨Ax.X, w⟩ = none := by
  unfold planeHit Plane.coordOf
  dsimp only
  rw [if_pos rfl]

lemma resolveDir_xwall_z (w : ℚ) (cp : V3) (zc : ℚ) (ws : WallState) :
    resolveDir [⟨Ax.X, w⟩] cp ⟨0, 0, zc⟩ ws = ws := by
  unfold resolveDir
  rw [nearestHit_single, planeHit_xwall_z]

lemma resolveWalls_xwall_dist (w : ℚ) (cp : V3) (ws : WallState)
    (hx : cp.x = ws.px) (hne : ws.px ≠ w) :
    appPhysics.playerRadius ≤
      |(resolveWalls [⟨Ax.X, w⟩] cp ws).px - w| := by
  have hrad : appPhysics.playerRadius = 2/5 := rfl
  unfold resolveWalls
  rw [resolveDir_xwall_z, resolveDir_xwall_z]
  rcases lt_or_gt_of_ne hne with hlt | hgt
  · -- player strictly left of the wall: only the +x ray can hit
    have hpx : resolveDir [⟨Ax.X, w⟩] cp ⟨1, 0, 0⟩ ws =
        if w - cp.x < appPhysics.playerRadius then
          { px := ws.px - (appPhysics.playerRadius - (w - cp.x) + 1/100)
            pz := ws.pz, vx := 0, vz := ws.vz }
        else ws := by
      unfold resolveDir
      rw [nearestHit_single, planeHit_xwall_px,
        if_pos (by rw [hx]; linarith)]
      dsimp only
      split
      · norm_num
      · rfl
    by_cases hclose : w - cp.x < appPhysics.playerRadius
    · rw [hpx, if_pos hclose]
      have hnx : resolveDir [⟨Ax.X, w⟩] cp ⟨-1, 0, 0⟩
          { px := ws.px - (appPhysics.playerRadius - (w - cp.x) + 1/100)
            pz := ws.pz, vx := 0, vz := ws.vz } =
          { px := ws.px - (appPhysics.playerRadius - (w - cp.x) + 1/100)
            pz := ws.pz, vx := 0, vz := ws.vz } := by
        unfold resolveDir
        rw [nearestHit_single, planeHit_xwall_nx,
          if_neg (by rw [hx]; intro h2; linarith)]
      rw [hnx]
      dsimp only
      have : ws.px - (appPhysics.playerRadius - (w - cp.x) + 1/100) - w =
          -(appPhysics.playerRadius + 1/100) := by
        rw [hx]; ring
      rw [this, abs_neg, abs_of_pos (by rw [hrad]; norm_num)]
      rw [hrad]; norm_num
    · rw [hpx, if_neg hclose]
      have hnx : resolveDir [⟨Ax.X, w⟩] cp ⟨-1, 0, 0⟩ ws = ws := by
        unfold resolveDir
        rw [nearestHit_single, planeHit_xwall_nx,
          if_neg (by rw [hx]; intro h2; linarith)]
      rw [hnx]
      have habs : |ws.px - w| = w - ws.px := by
        rw [abs_of_neg (by linarith)]; ring
      rw [habs]
      rw [hx] at hclose
      linarith [not_lt.1 hclose]
  · -- player strictly right of the wall: only the -x ray can hit
    have hpx : resolveDir [⟨Ax.X, w⟩] cp ⟨1, 0, 0⟩ ws = ws := by
      unfold resolveDir
      rw [nearestHit_single, planeHit_xwall_px,
        if_neg (by rw [hx]; intro h2; linarith)]
    rw [hpx]
    have hnx : resolveDir [⟨Ax.X, w⟩] cp ⟨-1, 0, 0⟩ ws =
        if cp.x - w < appPhysics.playerRadius then
          { px := ws.px + (appPhysics.playerRadius - (cp.x - w) + 1/100)
            pz := ws.pz, vx := 0, vz := ws.vz }
        else ws := by
      unfold resolveDir
      rw [nearestHit_single, planeHit_xwall_nx,
        if_pos (by rw [hx]; linarith)]
      dsimp only
      split
      · norm_num
        ring
      · rfl
    by_cases hclose : cp.x - w < appPhysics.playerRadius
    · rw [hnx, if_pos hclose]
      dsimp only
      have : ws.px + (appPhysics.playerRadius - (cp.x - w) + 1/100) - w =
          appPhysics.playerRadius + 1/100 := by
        rw [hx]; ring
      rw [this, abs_of_pos (by rw [hrad]; norm_num)]
      rw [hrad]; norm_num
    · rw [hnx, if_neg hclose]
      have habs : |ws.px - w| = ws.px - w := by
        rw [abs_of_pos (by linarith)]
      rw [habs]
      rw [hx] at hclose
      linarith [not_lt.1 hclose]

lemma planeHit_zwall_pz (w : ℚ) (o : V3) :
    planeHit o ⟨0, 0, 1⟩ ⟨Ax.Z, w⟩ =
      if 0 ≤ w - o.z then some (w - o.z) else none := by
  unfold planeHit Plane.coordOf
  dsimp only
  rw [if_neg (by norm_num : ¬((1 : ℚ) = 0)), div_one]

lemma planeHit_zwall_nz (w : ℚ) (o : V3) :
    planeHit o ⟨0, 0, -1⟩ ⟨Ax.Z, w⟩ =
      if 0 ≤ o.z - w then some (o.z - w) else none := by
  unfold planeHit Plane.coordOf
  dsimp only
  rw [if_neg (by norm_num : ¬((-1 : ℚ) = 0))]
  rw [show (w - o.z) / (-1 : ℚ) = o.z - w from by ring]

lemma planeHit_zwall_x (w : ℚ) (o : V3) (xc : ℚ) :
    planeHit o ⟨xc, 0, 0⟩ ⟨Ax.Z, w⟩ = none := by
  unfold planeHit Plane.coordOf
  dsimp only
  rw [if_pos rfl]

lemma planeHit_zwall_down (w : ℚ) (o : V3) :
    planeHit o ⟨0, -1, 0⟩ ⟨Ax.Z, w⟩ = none := by
  unfold planeHit Plane.coordOf
  dsimp only
  rw [if_pos rfl]

lemma resolveDir_zwall_x (w : ℚ) (cp : V3) (xc : ℚ) (ws : WallState) :
    resolveDir [⟨Ax.Z, w⟩] cp ⟨xc, 0, 0⟩ ws = ws := by
  unfold resolveDir
  rw [nearestHit_single, planeHit_zwall_x]

lemma resolveWalls_zwall_dist (w : ℚ) (cp : V3) (ws : WallState)
    (hz : cp.z = ws.pz) (hne : ws.pz ≠ w) :
    appPhysics.playerRadius ≤
      |(resolveWalls [⟨Ax.Z, w⟩] cp ws).pz - w| := by
  have hrad : appPhysics.playerRadius = 2/5 := rfl
  unfold resolveWalls
  rw [resolveDir_zwall_x, resolveDir_zwall_x]
  rcases lt_or_gt_of_ne hne with hlt | hgt
  · -- player strictly on the low-z side of the wall: only +z can hit
    have hpz : resolveDir [⟨Ax.Z, w⟩] cp ⟨0, 0, 1⟩ ws =
        if w - cp.z < appPhysics.playerRadius then
          { px := ws.px
            pz := ws.pz - (appPhysics.playerRadius - (w - cp.z) + 1/100)
            vx := ws.vx, vz := 0 }
        else ws := by
      unfold resolveDir
      rw [nearestHit_single, planeHit_zwall_pz,
        if_pos (by rw [hz]; linarith)]
      dsimp only
      split
      · norm_num
      · rfl
    by_cases hclose : w - cp.z < appPhysics.playerRadius
    · rw [hpz, if_pos hclose]
      have hnz : resolveDir [⟨Ax.Z, w⟩] cp ⟨0, 0, -1⟩
          { px := ws.px
            pz := ws.pz - (appPhysics.playerRadius - (w - cp.z) + 1/100)
            vx := ws.vx, vz := 0 } =
          { px := ws.px
            pz := ws.pz - (appPhysics.playerRadius - (w - cp.z) + 1/100)
            vx := ws.vx, vz := 0 } := by
        unfold resolveDir
        rw [nearestHit_single, planeHit_zwall_nz,
          if_neg (by rw [hz]; intro h2; linarith)]
      rw [hnz]
      dsimp only
      have : ws.pz - (appPhysics.playerRadius - (w - cp.z) + 1/100) - w =
          -(appPhysics.playerRadius + 1/100) := by
        rw [hz]; ring
      rw [this, abs_neg, abs_of_pos (by rw [hrad]; norm_num)]
      rw [hrad]; norm_num
    · rw [hpz, if_neg hclose]
      have hnz : resolveDir [⟨Ax.Z, w⟩] cp ⟨0, 0, -1⟩ ws = ws := by
        unfold resolveDir
        rw [nearestHit_single, planeHit_zwall_nz,
          if_neg (by rw [hz]; intro h2; linarith)]
      rw [hnz]
      have habs : |ws.pz - w| = w - ws.pz := by
        rw [abs_of_neg (by linarith)]; ring
      rw [habs]
      rw [hz] at hclose
      linarith [not_lt.1 hclose]
  · -- player strictly on the high-z side of the wall: only -z can hit
    have hpz : resolveDir [⟨Ax.Z, w⟩] cp ⟨0, 0, 1⟩ ws = ws := by
      unfold resolveDir
      rw [nearestHit_single, planeHit_zwall_pz,
        if_neg (by rw [hz]; intro h2; linarith)]
    rw [hpz]
    have hnz : resolveDir [⟨Ax.Z, w⟩] cp ⟨0, 0, -1⟩ ws =
        if cp.z - w < appPhysics.playerRadius then
          { px := ws.px
            pz := ws.pz + (appPhysics.playerRadius - (cp.z - w) + 1/100)
            vx := ws.vx, vz := 0 }
        else ws := by
      unfold resolveDir
      rw [nearestHit_single, planeHit_zwall_nz,
        if_pos (by rw [hz]; linarith)]
      dsimp only
      split
      · norm_num
        ring
      · rfl
    by_cases hclose : cp.z - w < appPhysics.playerRadius
    · rw [hnz, if_pos hclose]
      dsimp only
      have : ws.pz + (appPhysics.playerRadius - (cp.z - w) + 1/100) - w =
          appPhysics.playerRadius + 1/100 := by
        rw [hz]; ring
      rw [this, abs_of_pos (by rw [hrad]; norm_num)]
      rw [hrad]; norm_num
    · rw [hnz, if_neg hclose]
      have habs : |ws.pz - w| = ws.pz - w := by
        rw [abs_of_pos (by linarith)]
      rw [habs]
      rw [hz] at hclose
      linarith [not_lt.1 hclose]

end ClaimC1
section ClaimC1b

open PhysicsManager

lemma desktopFinalGround_xwall (w : ℚ) (s : DesktopState) :
    desktopFinalGround [⟨Ax.X, w⟩] s = { s with playerOnFloor := false } := by
  unfold desktopFinalGround
  rw [nearestHit_single, planeHit_xwall_down]

lemma desktopFinalGround_zwall (w : ℚ) (s : DesktopState) :
    desktopFinalGround [⟨Ax.Z, w⟩] s = { s with playerOnFloor := false } := by
  unfold desktopFinalGround
  rw [nearestHit_single, planeHit_zwall_down]

/-- Steps 1–4 of `updatePlayerVR` (everything before wall collision
resolution): vertical movement, friction, input/turn, position apply. -/
def PhysicsManager.vrPreResolve (delta : ℚ) (camFwd camRight : ℚ × ℚ)
    (field : List Plane) (moveG turnG : Option Gamepad) (s : VRState) :
    VRState :=
  vrApplyPos delta
    (vrMove delta camFwd camRight moveG
      (vrTurn delta turnG
        (vrFriction delta
          (vrVertical delta field s))))

lemma updatePlayerVR_decompose (delta : ℚ) (camFwd camRight : ℚ × ℚ)
    (field : List Plane) (moveG turnG : Option Gamepad) (s : VRState) :
    updatePlayerVR delta camFwd camRight field moveG turnG s =
      vrFinalFloor field (vrResolve field
        (PhysicsManager.vrPreResolve delta camFwd camRight field moveG
          turnG s)) := rfl

lemma vrFinalFloor_xwall (w : ℚ) (s : VRState) :
    vrFinalFloor [⟨Ax.X, w⟩] s = s := by
  unfold vrFinalFloor
  rw [nearestHit_single, planeHit_xwall_down]

lemma vrFinalFloor_zwall (w : ℚ) (s : VRState) :
    vrFinalFloor [⟨Ax.Z, w⟩] s = s := by
  unfold vrFinalFloor
  rw [nearestHit_single, planeHit_zwall_down]

/-- Claim C1, corrected.  For a collision field consisting of a single
wall plane orthogonal to a cardinal horizontal axis (x or z), after one
Movement tick — desktop `updatePlayerDesktop` or VR `updatePlayerVR` —
with any approach velocity and any held input, the player's horizontal
distance to that wall is at least `playerRadius` (hence at least
`playerRadius - ε` for any ε ≥ 0), provided the post-movement position
does not land exactly on the wall plane.  The claim's unrestricted form
— every mesh, every approach velocity — is false: the cardinal rays are
cast from a stale pre-push check position, so with several walls a push
off one wall can leave the player interpenetrating another (see the
corridor counterexample, which ends the tick at distance 0.04 from a
wall). -/
theorem C1_non_penetration_amended :
    (∀ rt delta (rightDir fwdDir : ℚ × ℚ) (s : DesktopState) (w : ℚ),
      (desktopPreResolve rt delta rightDir fwdDir [⟨Ax.X, w⟩] s).px ≠ w →
      appPhysics.playerRadius ≤
        Plane.dist ⟨Ax.X, w⟩
          ⟨(updatePlayerDesktop rt delta true rightDir fwdDir
              [⟨Ax.X, w⟩] s).px,
           (updatePlayerDesktop rt delta true rightDir fwdDir
              [⟨Ax.X, w⟩] s).py,
           (updatePlayerDesktop rt delta true rightDir fwdDir
              [⟨Ax.X, w⟩] s).pz⟩) ∧
    (∀ rt delta (rightDir fwdDir : ℚ × ℚ) (s : DesktopState) (w : ℚ),
      (desktopPreResolve rt delta rightDir fwdDir [⟨Ax.Z, w⟩] s).pz ≠ w →
      appPhysics.playerRadius ≤
        Plane.dist ⟨Ax.Z, w⟩
          ⟨(updatePlayerDesktop rt delta true rightDir fwdDir
              [⟨Ax.Z, w⟩] s).px,
           (updatePlayerDesktop rt delta true rightDir fwdDir
              [⟨Ax.Z, w⟩] s).py,
           (updatePlayerDesktop rt delta true rightDir fwdDir
              [⟨Ax.Z, w⟩] s).pz⟩) ∧
    (∀ delta (camFwd camRight : ℚ × ℚ) (moveG turnG : Option Gamepad)
        (s : VRState) (w : ℚ),
      (PhysicsManager.vrPreResolve delta camFwd camRight [⟨Ax.X, w⟩]
        moveG turnG s).rx ≠ w →
      appPhysics.playerRadius ≤
        Plane.dist ⟨Ax.X, w⟩
          ⟨(updatePlayerVR delta camFwd camRight [⟨Ax.X, w⟩] moveG
              turnG s).rx,
           (updatePlayerVR delta camFwd camRight [⟨Ax.X, w⟩] moveG
              turnG s).ry,
           (updatePlayerVR delta camFwd camRight [⟨Ax.X, w⟩] moveG
              turnG s).rz⟩) ∧
    (∀ delta (camFwd camRight : ℚ × ℚ) (moveG turnG : Option Gamepad)
        (s : VRState) (w : ℚ),
      (PhysicsManager.vrPreResolve delta camFwd camRight [⟨Ax.Z, w⟩]
        moveG turnG s).rz ≠ w →
      appPhysics.playerRadius ≤
        Plane.dist ⟨Ax.Z, w⟩
          ⟨(updatePlayerVR delta camFwd camRight [⟨Ax.Z, w⟩] moveG
              turnG s).rx,
           (updatePlayerVR delta camFwd camRight [⟨Ax.Z, w⟩] moveG
              turnG s).ry,
           (updatePlayerVR delta camFwd camRight [⟨Ax.Z, w⟩] moveG
              turnG s).rz⟩) := by
  refine ⟨?_, ?_, ?_, ?_⟩
  · intro rt delta rightDir fwdDir s w hne
    have hdist : ∀ v : V3, Plane.dist ⟨Ax.X, w⟩ v = |v.x - w| :=
      fun v => rfl
    rw [hdist]
    dsimp only
    unfold updatePlayerDesktop
    rw [if_pos rfl]
    dsimp only
    rw [desktopFinalGround_xwall]
    dsimp only
    exact resolveWalls_xwall_dist w _ _ rfl hne
  · intro rt delta rightDir fwdDir s w hne
    have hdist : ∀ v : V3, Plane.dist ⟨Ax.Z, w⟩ v = |v.z - w| :=
      fun v => rfl
    rw [hdist]
    dsimp only
    unfold updatePlayerDesktop
    rw [if_pos rfl]
    dsimp only
    rw [desktopFinalGround_zwall]
    dsimp only
    exact resolveWalls_zwall_dist w _ _ rfl hne
  · intro delta camFwd camRight moveG turnG s w hne
    have hdist : ∀ v : V3, Plane.dist ⟨Ax.X, w⟩ v = |v.x - w| :=
      fun v => rfl
    rw [hdist]
    dsimp only
    rw [updatePlayerVR_decompose, vrFinalFloor_xwall]
    unfold vrResolve
    dsimp only
    exact resolveWalls_xwall_dist w _ _ rfl hne
  · intro delta camFwd camRight moveG turnG s w hne
    have hdist : ∀ v : V3, Plane.dist ⟨Ax.Z, w⟩ v = |v.z - w| :=
      fun v => rfl
    rw [hdist]
    dsimp only
    rw [updatePlayerVR_decompose, vrFinalFloor_zwall]
    unfold vrResolve
    dsimp only
    exact resolveWalls_zwall_dist w _ _ rfl hne

/-- Counterexample to C1 as stated: a corridor of two x-walls at 0.05
and -0.4.  The player at x = 0 is pushed back 0.36 by the near wall, but
the opposite ray was cast from the stale pre-push origin (distance
exactly 0.4, no hit), so the tick ends at distance 1/25 = 0.04 from the
far wall — interpenetration beyond `playerRadius − ε` persists across
the frame boundary for every ε up to 0.36. -/
theorem C1_non_penetration_counterexample :
    Plane.dist ⟨Ax.X, -2/5⟩
      ⟨(updatePlayerDesktop 0 (1/100) true (1, 0) (0, 1)
          [⟨Ax.X, 1/20⟩, ⟨Ax.X, -2/5⟩]
          { px := 0, py := 10, pz := 0, vx := 0, vy := 0, vz := 0
            keys := KeyState.none, playerOnFloor := false
            currentMoveSpeed := 20 }).px,
       (updatePlayerDesktop 0 (1/100) true (1, 0) (0, 1)
          [⟨Ax.X, 1/20⟩, ⟨Ax.X, -2/5⟩]
          { px := 0, py := 10, pz := 0, vx := 0, vy := 0, vz := 0
            keys := KeyState.none, playerOnFloor := false
            currentMoveSpeed := 20 }).py,
       (updatePlayerDesktop 0 (1/100) true (1, 0) (0, 1)
          [⟨Ax.X, 1/20⟩, ⟨Ax.X, -2/5⟩]
          { px := 0, py := 10, pz := 0, vx := 0, vy := 0, vz := 0
            keys := KeyState.none, playerOnFloor := false
            currentMoveSpeed := 20 }).pz⟩ = 1/25 ∧
    (1/25 : ℚ) < appPhysics.playerRadius - 1/100 := by
  constructor
  · norm_num [updatePlayerDesktop, desktopPreResolve, desktopVertical,
      desktopHorizontal, resolveWalls, resolveDir, desktopFinalGround,
      nearestHit, planeHit, Plane.coordOf, Plane.dist, normDir, dirX, dirZ,
      KeyState.none, appPhysics, List.filterMap_cons, List.filterMap_nil]
  · norm_num [appPhysics]

/-- Witness for the amended C1: a desktop tick against an x-wall at
x = 1/4 and a VR tick against a z-wall at z = 1/4, the player in both
cases at the origin with zero velocity — each tick pushes the player out
to distance 0.41 ≥ playerRadius. -/
theorem C1_non_penetration_amended_witness :
    (appPhysics.playerRadius ≤
      Plane.dist ⟨Ax.X, 1/4⟩
        ⟨(updatePlayerDesktop 0 (1/100) true (1, 0) (0, 1)
            [⟨Ax.X, 1/4⟩]
            { px := 0, py := 10, pz := 0, vx := 0, vy := 0, vz := 0
              keys := KeyState.none, playerOnFloor := false
              currentMoveSpeed := 20 }).px,
         (updatePlayerDesktop 0 (1/100) true (1, 0) (0, 1)
            [⟨Ax.X, 1/4⟩]
            { px := 0, py := 10, pz := 0, vx := 0, vy := 0, vz := 0
              keys := KeyState.none, playerOnFloor := false
              currentMoveSpeed := 20 }).py,
         (updatePlayerDesktop 0 (1/100) true (1, 0) (0, 1)
            [⟨Ax.X, 1/4⟩]
            { px := 0, py := 10, pz := 0, vx := 0, vy := 0, vz := 0
              keys := KeyState.none, playerOnFloor := false
              currentMoveSpeed := 20 }).pz⟩) ∧
    (appPhysics.playerRadius ≤
      Plane.dist ⟨Ax.Z, 1/4⟩
        ⟨(updatePlayerVR (1/100) (0, 1) (1, 0) [⟨Ax.Z, 1/4⟩] none none
            { rx := 0, ry := 0, rz := 0, rotY := 0
              vx := 0, vy := 0, vz := 0 }).rx,
         (updatePlayerVR (1/100) (0, 1) (1, 0) [⟨Ax.Z, 1/4⟩] none none
            { rx := 0, ry := 0, rz := 0, rotY := 0
              vx := 0, vy := 0, vz := 0 }).ry,
         (updatePlayerVR (1/100) (0, 1) (1, 0) [⟨Ax.Z, 1/4⟩] none none
            { rx := 0, ry := 0, rz := 0, rotY := 0
              vx := 0, vy := 0, vz := 0 }).rz⟩) :=
  ⟨C1_non_penetration_amended.1 0 (1/100) (1, 0) (0, 1)
    { px := 0, py := 10, pz := 0, vx := 0, vy := 0, vz := 0
      keys := KeyState.none, playerOnFloor := false
      currentMoveSpeed := 20 } (1/4)
    (by norm_num [desktopPreResolve, desktopVertical, desktopHorizontal,
      nearestHit, planeHit, Plane.coordOf, normDir, dirX, dirZ,
      KeyState.none, appPhysics, List.filterMap_cons, List.filterMap_nil]),
   C1_non_penetration_amended.2.2.2 (1/100) (0, 1) (1, 0) none none
    { rx := 0, ry := 0, rz := 0, rotY := 0, vx := 0, vy := 0, vz := 0 }
    (1/4)
    (by norm_num [PhysicsManager.vrPreResolve, vrVertical, vrFriction,
      vrTurn, vrMove, vrApplyPos, nearestHit, planeHit, Plane.coordOf,
      appPhysics, appVR, List.filterMap_cons, List.filterMap_nil])⟩

end ClaimC1b
